import Mathlib

/-!
# Offline-first contribution sync engine

A shallow embedding of `src/github-integration.js` (class `GitHubIntegration`).

Modelling conventions.

* The object's fields and the three `localStorage` keys it uses form one `State`;
  every method is a function from a `State` to an outcome and the `State` it leaves.
  A JavaScript exception is an `Except.error`, a normal return an `Except.ok`.
* The world outside the program is an `Env`: whether `localStorage` can be
  accessed, whether it has room, what `fetch` answers to the k-th request, and
  how a date is printed for the locale `ar`.
* `JSON.stringify` followed by `JSON.parse` is the identity on the records stored
  under `offline_contributions`, so that key holds a list of records.
* Every call of `fetch` is appended to `State.requests`; every call of
  `showNotification`, `showLoadingNotification` and `form.reset()` to
  `State.effects`. `console.log` / `console.error` and DOM text updates are not
  recorded.
* `await` is sequential composition.
-/

namespace GitHubIntegration

/-! ## Values -/

/-- JavaScript values as far as the module looks at them: what `response.json()`
may deliver and what the methods return. Objects and arrays are kept as text. -/
inductive JsValue where
  | undefined
  | null
  | bool (b : Bool)
  | num (n : Int)
  | str (s : String)
  | object (text : String)
deriving DecidableEq, Repr

/-- JavaScript truthiness (`if (result)`). -/
def JsValue.truthy : JsValue → Bool
  | .undefined => false
  | .null => false
  | .bool b => b
  | .num n => n != 0
  | .str s => s != ""
  | .object _ => true

/-- Errors that can be thrown along the modelled paths. -/
inductive JsError where
  /-- Rejection of `fetch` (network unreachable). -/
  | networkError
  /-- The `Error` thrown by `makeRequest` for a response that is not ok. -/
  | apiError (status : Nat) (statusText : String)
  /-- Rejection of `response.json()`. -/
  | decodeError
  /-- Access to `localStorage` denied. -/
  | securityError
  /-- No room left for `localStorage.setItem`. -/
  | quotaExceededError
  /-- A `TypeError` raised while the statistics are written to the page. -/
  | typeError
deriving DecidableEq, Repr

/-- A field of a record: a string, `null`, or `undefined` (the property is
absent). `JSON.stringify` keeps a `null` and drops an `undefined`, so both come
back from `JSON.parse` as they went in. -/
inductive Field where
  | undefined
  | null
  | text (s : String)
deriving DecidableEq, Repr

/-- Truthiness of a field: a string that is not empty. -/
def truthy : Field → Bool
  | .text s => s != ""
  | .null => false
  | .undefined => false

/-- The JavaScript `a || b` on fields. -/
def jsOr (a b : Field) : Field :=
  if truthy a then a else b

/-- Template-literal interpolation of a field. -/
def interpolate : Field → String
  | .text s => s
  | .null => "null"
  | .undefined => "undefined"

/-- A string-or-`null` value, such as `localStorage.getItem` returns or
`this.token` holds, as a field. -/
def stored : Option String → Field
  | some s => .text s
  | none => .null

/-- The argument of `submitWordSuggestion` (the `contributionData` built by
`handleContributionSubmit`). -/
structure WordData where
  amharic : Field
  pronunciation : Field
  arabic : Field
  usage : Field
  category : Field
  level : Field
  timestamp : Field
  contributor : Field
deriving DecidableEq, Repr

/-- Property access `contributionData[field]`. -/
def WordData.get (w : WordData) (field : String) : Field :=
  if field = "amharic" then w.amharic
  else if field = "pronunciation" then w.pronunciation
  else if field = "arabic" then w.arabic
  else if field = "usage" then w.usage
  else if field = "category" then w.category
  else if field = "level" then w.level
  else if field = "timestamp" then w.timestamp
  else if field = "contributor" then w.contributor
  else .undefined

/-- The record `submitWordSuggestion` builds and queues. -/
structure Contribution where
  amharic : Field
  pronunciation : Field
  arabic : Field
  usage : Field
  category : Field
  level : Field
  timestamp : String
  contributor : String
  status : String
deriving DecidableEq, Repr

/-- The object passed to `JSON.stringify` as the body of the issue request. -/
structure IssuePayload where
  title : String
  body : String
  labels : List String
deriving DecidableEq, Repr

/-- The `options` argument of `makeRequest`. -/
structure RequestOptions where
  method : Option String
  body : Option IssuePayload
  headers : List (String × String)
deriving DecidableEq, Repr

/-- What `fetch(url, config)` is called with. -/
structure Request where
  url : String
  method : Option String
  body : Option IssuePayload
  headers : List (String × String)
deriving DecidableEq, Repr

/-- What `fetch` does: it rejects, or resolves to a response whose body
parses as JSON (`some`) or does not (`none`). -/
inductive FetchOutcome where
  | rejected
  | response (status : Nat) (statusText : String) (json : Option JsValue)
deriving DecidableEq, Repr

/-- The field `response.ok`: status in the range 200-299. -/
def responseOk (status : Nat) : Bool :=
  decide (200 ≤ status) && decide (status ≤ 299)

/-- Calls into the user interface. -/
inductive Effect where
  | notification (message : String) (type : String)
  | loading (message : String)
  | formReset
deriving DecidableEq, Repr

/-- The world outside the program. -/
structure Env where
  /-- Any access to `localStorage` throws. -/
  storageDenied : Bool
  /-- The method `localStorage.setItem` throws for lack of room. -/
  storageFull : Bool
  /-- The answer of `fetch` to a request, given how many requests came before. -/
  fetch : Nat → Request → FetchOutcome
  /-- The function `new Date(t).toLocaleString(locale)` at locale `ar`. -/
  toLocaleString : String → String
  /-- The page has an element with id `recent-activity`. -/
  recentActivityPresent : Bool := false
  /-- The method `updateStatsDisplay` throws on the data at hand (for instance
  `formatNumber(undefined)`). -/
  statsDisplayThrows : Bool := false

/-- The fields of the object, the three keys of `localStorage`, and the log of
what was sent out. -/
structure State where
  token : Option String
  isConnected : Bool
  contributors : JsValue
  commits : JsValue
  issues : JsValue
  branches : JsValue
  /-- Key `github_token` of `localStorage`. -/
  github_token : Option String
  /-- Key `current_username` of `localStorage`. -/
  current_username : Option String
  /-- Key `offline_contributions` of `localStorage`; `none` when the key is absent. -/
  offline_contributions : Option (List Contribution)
  /-- Every request handed to `fetch`, oldest first. -/
  requests : List Request
  /-- Every call into the user interface, oldest first. -/
  effects : List Effect
deriving DecidableEq, Repr

/-- Outcome of a method together with the state it leaves. -/
abbrev Result (α : Type) := Except JsError α × State

def apiBaseUrl : String := "https://api.github.com"

def owner : String := "amharic-dictionary"

def repo : String := "enhanced-dictionary"

/-! ## User interface -/

/-- The method `showNotification(message, type)`. -/
def showNotification (message type : String) (s : State) : State :=
  { s with effects := s.effects ++ [Effect.notification message type] }

/-- The method `showLoadingNotification(message)`. -/
def showLoadingNotification (message : String) (s : State) : State :=
  { s with effects := s.effects ++ [Effect.loading message] }

/-- The call `event.target.reset()`. -/
def formReset (s : State) : State :=
  { s with effects := s.effects ++ [Effect.formReset] }

/-! ## Durable storage -/

/-- The expression `localStorage.getItem(key_offline_contributions)`. -/
def getItemOfflineContributions (env : Env) (s : State) :
    Except JsError (Option (List Contribution)) :=
  if env.storageDenied then .error .securityError else .ok s.offline_contributions

/-- The statement `localStorage.setItem(key_offline_contributions, JSON.stringify(v))`. -/
def setItemOfflineContributions (env : Env) (v : List Contribution) (s : State) :
    Result Unit :=
  if env.storageDenied then (.error .securityError, s)
  else if env.storageFull then (.error .quotaExceededError, s)
  else (.ok (), { s with offline_contributions := some v })

/-- The statement `localStorage.removeItem(key_offline_contributions)`. -/
def removeItemOfflineContributions (env : Env) (s : State) : Result Unit :=
  if env.storageDenied then (.error .securityError, s)
  else (.ok (), { s with offline_contributions := none })

/-- The persisted queue as every reader in the module sees it:
`JSON.parse(localStorage.getItem(key) || "[]")`, an absent key being the empty queue. -/
def persistedQueue (s : State) : List Contribution :=
  s.offline_contributions.getD []

/-- The method `getCurrentUser`: the stored user name, `null` when it is missing,
empty, or the storage throws. -/
def getCurrentUser (env : Env) (s : State) : Field :=
  if env.storageDenied then .null else jsOr (stored s.current_username) .null

/-- The method `storeOfflineContribution`: read the queue, push, write it back. -/
def storeOfflineContribution (env : Env) (contribution : Contribution) (s : State) :
    Result Unit :=
  match getItemOfflineContributions env s with
  | .error e => (.error e, s)
  | .ok stored =>
    let offlineContributions := stored.getD [] ++ [contribution]
    setItemOfflineContributions env offlineContributions s

/-! ## Remote client -/

/-- Object spread of two header objects: the keys of `a` in place, with the value
of `b` where `b` has the key, then the keys only `b` has. -/
def spreadHeaders (a b : List (String × String)) : List (String × String) :=
  a.map (fun kv => match b.lookup kv.1 with
    | some v => (kv.1, v)
    | none => kv)
  ++ b.filter (fun kv => (a.lookup kv.1).isNone)

/-- The headers `makeRequest` starts from, with `Authorization` when a token is set. -/
def defaultHeaders (s : State) : List (String × String) :=
  [("Accept", "application/vnd.github.v3+json"), ("Content-Type", "application/json")]
  ++ (if truthy (stored s.token) then
        [("Authorization", "token " ++ interpolate (stored s.token))]
      else [])

/-- The `url` and `config` that `makeRequest` hands to `fetch`. -/
def requestOf (endpoint : String) (options : RequestOptions) (s : State) : Request :=
  { url := apiBaseUrl ++ endpoint
    method := options.method
    body := options.body
    headers := spreadHeaders (defaultHeaders s) options.headers }

/-- The method `makeRequest`: one `fetch`; a rejection, a response that is not ok
and an unparsable body are thrown (the `catch` logs and rethrows). -/
def makeRequest (env : Env) (endpoint : String) (options : RequestOptions) (s : State) :
    Result JsValue :=
  let config := requestOf endpoint options s
  let s1 := { s with requests := s.requests ++ [config] }
  match env.fetch s.requests.length config with
  | .rejected => (.error .networkError, s1)
  | .response status statusText json =>
    if !responseOk status then (.error (.apiError status statusText), s1)
    else match json with
      | none => (.error .decodeError, s1)
      | some v => (.ok v, s1)

/-- The endpoint of the issue tracker of the repository. -/
def issuesEndpoint : String := "/repos/" ++ owner ++ "/" ++ repo ++ "/issues"

/-- The `title` template of `createContributionIssue`. -/
def issueTitle (c : Contribution) : String :=
  "تعريف كلمة جديدة: " ++ interpolate c.amharic

/-- The `body` template of `createContributionIssue`. -/
def issueBody (env : Env) (c : Contribution) : String :=
  "\n## مساهمة جديدة في القاموس الأمهرية\n\n### تفاصيل الكلمة:\n- **الكلمة الأمهرية**: "
  ++ interpolate c.amharic
  ++ "\n- **النطق**: "
  ++ interpolate c.pronunciation
  ++ "\n- **الترجمة العربية**: "
  ++ interpolate c.arabic
  ++ "\n- **مثال الاستخدام**: "
  ++ interpolate (jsOr c.usage (.text "غير متوفر"))
  ++ "\n- **التصنيف**: "
  ++ interpolate c.category
  ++ "\n- **المستوى**: "
  ++ interpolate c.level
  ++ "\n\n### معلومات المساهم:\n- **المساهم**: "
  ++ c.contributor
  ++ "\n- **التاريخ**: "
  ++ env.toLocaleString c.timestamp
  ++ "\n\n### إرشادات المراجعة:\n- [ ] التحقق من دقة النطق\n- [ ] التحقق من دقة الترجمة\n- [ ] التحقق من صحة مثال الاستخدام\n- [ ] التحقق من التصنيف المناسب\n- [ ] التحقق من مستوى الصعوبة\n\n---\n*تم إنشاؤها تلقائياً من خلال تطبيق القاموس الأمهرية*\n        "

/-- The `options` of the issue request of `createContributionIssue`. -/
def issueOptions (env : Env) (c : Contribution) : RequestOptions :=
  { method := some "POST"
    body := some
      { title := issueTitle c
        body := issueBody env c
        labels := ["contribution", "word-definition", "new-entry"] }
    headers := [] }

/-- The method `createContributionIssue`: `false` without a request when not
connected; otherwise one POST, returning the issue, or `null` when the request
throws. -/
def createContributionIssue (env : Env) (contributionData : Contribution) (s : State) :
    Result JsValue :=
  if !s.isConnected then
    (.ok (.bool false), showNotification "يرجى الاتصال بـ GitHub أولاً" "warning" s)
  else
    match makeRequest env issuesEndpoint (issueOptions env contributionData) s with
    | (.ok issue, s1) =>
      (.ok issue, showNotification "تم إرسال المساهمة كطلب مراجعة" "success" s1)
    | (.error _, s1) =>
      (.ok .null, showNotification "فشل في إرسال المساهمة" "error" s1)

/-- The method `getRepository`: the repository object, `null` when the request throws. -/
def getRepository (env : Env) (s : State) : Result JsValue :=
  match makeRequest env ("/repos/" ++ owner ++ "/" ++ repo)
      { method := none, body := none, headers := [] } s with
  | (.ok v, s1) => (.ok v, s1)
  | (.error _, s1) => (.ok .null, s1)

/-- The method `getContributors`: stores and returns the list, `[]` when the
request throws. -/
def getContributors (env : Env) (s : State) : Result JsValue :=
  match makeRequest env ("/repos/" ++ owner ++ "/" ++ repo ++ "/contributors")
      { method := none, body := none, headers := [] } s with
  | (.ok contributors, s1) => (.ok contributors, { s1 with contributors := contributors })
  | (.error _, s1) => (.ok (.object "[]"), s1)

/-- The method `getCommits(limit)`: stores and returns the list, `[]` when the
request throws. -/
def getCommits (env : Env) (limit : Nat) (s : State) : Result JsValue :=
  match makeRequest env
      ("/repos/" ++ owner ++ "/" ++ repo ++ "/commits?per_page=" ++ toString limit)
      { method := none, body := none, headers := [] } s with
  | (.ok commits, s1) => (.ok commits, { s1 with commits := commits })
  | (.error _, s1) => (.ok (.object "[]"), s1)

/-- The method `getRepositoryStats`, as far as it acts on the state: the three
reads it awaits in turn. The statistics object it returns only feeds the DOM. -/
def getRepositoryStats (env : Env) (s : State) : State :=
  let s1 := (getRepository env s).2
  let s2 := (getContributors env s1).2
  (getCommits env 1 s2).2

/-- The method `updateStats`: `getRepositoryStats`, then a DOM update. -/
def updateStats (env : Env) (s : State) : State :=
  getRepositoryStats env s

/-- The method `getIssues(state)`: stores and returns the list, `[]` when the
request throws. -/
def getIssues (env : Env) (state : String) (s : State) : Result JsValue :=
  match makeRequest env
      ("/repos/" ++ owner ++ "/" ++ repo ++ "/issues?state=" ++ state ++ "&per_page=20")
      { method := none, body := none, headers := [] } s with
  | (.ok issues, s1) => (.ok issues, { s1 with issues := issues })
  | (.error _, s1) => (.ok (.object "[]"), s1)

/-- The method `getBranches`: stores and returns the list, `[]` when the request
throws. -/
def getBranches (env : Env) (s : State) : Result JsValue :=
  match makeRequest env ("/repos/" ++ owner ++ "/" ++ repo ++ "/branches")
      { method := none, body := none, headers := [] } s with
  | (.ok branches, s1) => (.ok branches, { s1 with branches := branches })
  | (.error _, s1) => (.ok (.object "[]"), s1)

/-- The method `loadRecentActivity`, as far as it acts on the state: nothing
without the page element, else the two reads it awaits; what it writes to the
page is not recorded and what it throws it catches. -/
def loadRecentActivity (env : Env) (s : State) : State :=
  if !env.recentActivityPresent then s
  else
    let s1 := (getCommits env 5 s).2
    (getIssues env "open" s1).2

/-- The method `loadProjectData`: the statistics, their display (which may
throw), the recent activity. The timer of `setupRealTimeUpdates` is not
modelled. -/
def loadProjectData (env : Env) (s : State) : Result Unit :=
  let s1 := getRepositoryStats env s
  if env.statsDisplayThrows then (.error .typeError, s1)
  else (.ok (), loadRecentActivity env s1)

/-! ## Sync orchestrator -/

/-- The record built at the head of `submitWordSuggestion`: the spread of
`wordData`, then `timestamp`, `contributor` and `status` set anew. The
argument `now` is the reading `new Date().toISOString()`. -/
def contributionOf (env : Env) (now : String) (wordData : WordData) (s : State) :
    Contribution :=
  { amharic := wordData.amharic
    pronunciation := wordData.pronunciation
    arabic := wordData.arabic
    usage := wordData.usage
    category := wordData.category
    level := wordData.level
    timestamp := now
    contributor := interpolate (jsOr (getCurrentUser env s) (.text "مجهول"))
    status := "pending" }

/-- The method `submitWordSuggestion`: store the contribution, then, when
connected, try to create the issue; a throw of that attempt stores the
contribution again and returns `null`. -/
def submitWordSuggestion (env : Env) (now : String) (wordData : WordData) (s : State) :
    Result JsValue :=
  let contribution := contributionOf env now wordData s
  match storeOfflineContribution env contribution s with
  | (.error e, s1) => (.error e, s1)
  | (.ok _, s1) =>
    if s1.isConnected then
      match createContributionIssue env contribution s1 with
      | (.ok v, s2) => (.ok v, s2)
      | (.error _, s2) =>
        match storeOfflineContribution env contribution s2 with
        | (.error e, s3) => (.error e, s3)
        | (.ok _, s3) =>
          (.ok .null,
            showNotification "تم حفظ المساهمة محلياً سيتم إرسالها عند الاتصال" "warning" s3)
    else
      (.ok .null, showNotification "تم حفظ المساهمة محلياً" "info" s1)

/-- The `for` loop of `syncOfflineContributions`: one `createContributionIssue`
per item of the snapshot; a throw is caught and the loop continues. -/
def syncLoop (env : Env) : List Contribution → State → State
  | [], s => s
  | contribution :: rest, s =>
    match createContributionIssue env contribution s with
    | (.ok _, s1) => syncLoop env rest s1
    | (.error _, s1) => syncLoop env rest s1

/-- The method `syncOfflineContributions`: read the queue, run the loop, remove
the key, notify. -/
def syncOfflineContributions (env : Env) (s : State) : Result Unit :=
  match getItemOfflineContributions env s with
  | .error e => (.error e, s)
  | .ok stored =>
    let offlineContributions := stored.getD []
    let s1 := syncLoop env offlineContributions s
    match removeItemOfflineContributions env s1 with
    | (.error e, s2) => (.error e, s2)
    | (.ok _, s2) =>
      (.ok (), showNotification "تم مزامنة جميع المساهمات المحفوظة" "success" s2)

/-- What `handleContributionSubmit` reads: `formData.get(name)` of the submitted
form and `document.getElementById(id)?.value`. -/
structure SubmitEvent where
  formData : String → Field
  elementValue : String → Field

/-- The `contributionData` object of `handleContributionSubmit`; `now` is the
reading `new Date().toISOString()`. -/
def contributionDataOf (env : Env) (now : String) (event : SubmitEvent) (s : State) :
    WordData :=
  { amharic := jsOr (event.formData "amharic-word") (event.elementValue "amharic-word")
    pronunciation := jsOr (event.formData "pronunciation") (event.elementValue "pronunciation")
    arabic :=
      jsOr (event.formData "arabic-translation") (event.elementValue "arabic-translation")
    usage := jsOr (event.formData "usage-example") (event.elementValue "usage-example")
    category := jsOr (event.formData "category") (event.elementValue "category")
    level := jsOr (event.formData "level") (event.elementValue "level")
    timestamp := .text now
    contributor := jsOr (getCurrentUser env s) (.text "مجهول") }

def requiredFields : List String :=
  ["amharic", "pronunciation", "arabic", "category", "level"]

/-- The method `handleContributionSubmit`. The arguments `now1` and `now2` are the
clock readings of the handler and of `submitWordSuggestion`. The call
`this.updateStats()` is run to its end before the last notification. -/
def handleContributionSubmit (env : Env) (now1 now2 : String) (event : SubmitEvent)
    (s : State) : Result Unit :=
  let contributionData := contributionDataOf env now1 event s
  match requiredFields.find? (fun field => !truthy (contributionData.get field)) with
  | some field => (.ok (), showNotification ("يرجى ملء حقل " ++ field) "warning" s)
  | none =>
    let s1 := showLoadingNotification "جاري الإرسال إلى GitHub..." s
    match submitWordSuggestion env now2 contributionData s1 with
    | (.ok result, s2) =>
      if result.truthy then
        let s3 := formReset s2
        let s4 := updateStats env s3
        (.ok (), showNotification "تم إرسال المساهمة بنجاح!" "success" s4)
      else (.ok (), s2)
    | (.error _, s2) => (.ok (), showNotification "فشل في إرسال المساهمة" "error" s2)

/-! ## Session -/

/-- The method `checkConnection`: the flag becomes `!!this.token`; when it is
set, `this.updateStats()` is started (run here to its end). -/
def checkConnection (env : Env) (s : State) : State :=
  let s1 := { s with isConnected := truthy (stored s.token) }
  if s1.isConnected then updateStats env s1 else s1

/-- The method `init`: `checkConnection`, then `loadProjectData`; the listeners
registered by `setupEventListeners` are `onOnline` and `handleContributionSubmit`. -/
def init (env : Env) (s : State) : Result Unit :=
  loadProjectData env (checkConnection env s)

/-- The constructor, given what `localStorage` holds: it throws when the storage
cannot be read; otherwise it sets the fields and starts `init`, whose rejection
nobody handles. -/
def construct (env : Env) (github_token current_username : Option String)
    (offline_contributions : Option (List Contribution)) : Except JsError State :=
  if env.storageDenied then .error .securityError
  else
    .ok (init env
      { token := if truthy (stored github_token) then github_token else none
        isConnected := false
        contributors := .object "[]"
        commits := .object "[]"
        issues := .object "[]"
        branches := .object "[]"
        github_token := github_token
        current_username := current_username
        offline_contributions := offline_contributions
        requests := []
        effects := [] }).2

/-- The statement `localStorage.setItem(key_github_token, token)`. -/
def setItemGithubToken (env : Env) (token : String) (s : State) : Result Unit :=
  if env.storageDenied then (.error .securityError, s)
  else if env.storageFull then (.error .quotaExceededError, s)
  else (.ok (), { s with github_token := some token })

/-- The method `authenticate(token)`: the token is set and stored, then tested
with `GET /user`; only when that request succeeds is the flag set. Whatever is
thrown on the way is caught and answered with `false`. -/
def authenticate (env : Env) (token : String) (s : State) : Result Bool :=
  let s1 := { s with token := some token }
  match setItemGithubToken env token s1 with
  | (.error _, s2) => (.ok false, showNotification "فشل في الاتصال بـ GitHub" "error" s2)
  | (.ok _, s2) =>
    match makeRequest env "/user" { method := none, body := none, headers := [] } s2 with
    | (.error _, s3) => (.ok false, showNotification "فشل في الاتصال بـ GitHub" "error" s3)
    | (.ok _, s3) =>
      let s4 := { s3 with isConnected := true }
      let s5 := showNotification "تم الاتصال بـ GitHub بنجاح" "success" s4
      match loadProjectData env s5 with
      | (.error _, s6) => (.ok false, showNotification "فشل في الاتصال بـ GitHub" "error" s6)
      | (.ok _, s6) => (.ok true, s6)

/-- The listener of the `online` event: with a token, `checkConnection` and then
`syncOfflineContributions` (not awaited: what it throws nobody handles). -/
def onOnline (env : Env) (s : State) : State :=
  if truthy (stored s.token) then (syncOfflineContributions env (checkConnection env s)).2
  else s

/-- A request was answered with an ok status and a body that parses. -/
def FetchOutcome.succeeded : FetchOutcome → Bool
  | .rejected => false
  | .response status _ json => responseOk status && json.isSome

/-- The credential of the session is present: `this.token` is truthy. -/
def credentialPresent (s : State) : Bool :=
  truthy (stored s.token)

/-- The credential of the session has been validated against the remote API:
some request of the log carried it in its `Authorization` header and succeeded. -/
def credentialValidated (env : Env) (s : State) : Bool :=
  s.requests.enum.any (fun kr =>
    decide (("Authorization", "token " ++ interpolate (stored s.token)) ∈ kr.2.headers)
      && (env.fetch kr.1 kr.2).succeeded)

/-- The text `part` occurs in `text` as a contiguous piece. -/
def containsText (text part : String) : Prop :=
  part.data <:+: text.data

instance (text part : String) : Decidable (containsText text part) :=
  inferInstanceAs (Decidable (part.data <:+: text.data))

/-! ## Concrete scenarios -/

def sampleContribution (word : String) (stamp : String) : Contribution :=
  { amharic := .text word
    pronunciation := .text "selam"
    arabic := .text "سلام"
    usage := .undefined
    category := .text "greetings"
    level := .text "beginner"
    timestamp := stamp
    contributor := "مجهول"
    status := "pending" }

def itemA : Contribution := sampleContribution "ሰላም" "2024-01-01T10:00:00.000Z"

def itemB : Contribution := sampleContribution "ውሃ" "2024-01-01T10:05:00.000Z"

def itemC : Contribution := sampleContribution "ቤት" "2024-01-01T10:10:00.000Z"

/-- A connected session with the queue `[A, B, C]` and nothing sent yet. -/
def connectedState : State :=
  { token := some "ghp_token"
    isConnected := true
    contributors := .object "[]"
    commits := .object "[]"
    issues := .object "[]"
    branches := .object "[]"
    github_token := some "ghp_token"
    current_username := none
    offline_contributions := some [itemA, itemB, itemC]
    requests := []
    effects := [] }

/-- A world whose storage works and whose network rejects the second request
only; every other request is answered 201 with an issue. -/
def secondFailsEnv : Env :=
  { storageDenied := false
    storageFull := false
    fetch := fun k _ =>
      if k = 1 then .rejected else .response 201 "Created" (some (.object "issue"))
    toLocaleString := fun t => t }


/-- The same session with the key present and holding the empty queue. -/
def emptyQueueState : State :=
  { connectedState with offline_contributions := some [] }

/-- The same session before any credential was validated. -/
def anonymousState : State :=
  { connectedState with token := none, isConnected := false, github_token := none }

/-- A world whose storage works and whose network rejects every request. -/
def offlineEnv : Env :=
  { secondFailsEnv with fetch := fun _ _ => .rejected }

/-- A world whose storage has no room left. -/
def storageFullEnv : Env :=
  { secondFailsEnv with storageFull := true }

def sampleWord : WordData :=
  { amharic := .text "ሰላም"
    pronunciation := .text "selam"
    arabic := .text "سلام"
    usage := .undefined
    category := .text "greetings"
    level := .text "beginner"
    timestamp := .text "2024-01-01T09:59:59.000Z"
    contributor := .text "مجهول" }

/-- A submitted form with every field filled in. -/
def filledForm : SubmitEvent :=
  { formData := fun name =>
      if name = "amharic-word" then .text "ሰላም"
      else if name = "pronunciation" then .text "selam"
      else if name = "arabic-translation" then .text "سلام"
      else if name = "category" then .text "greetings"
      else if name = "level" then .text "beginner"
      else .null
    elementValue := fun _ => .undefined }

/-- A submitted form whose pronunciation is the empty string. -/
def formWithoutPronunciation : SubmitEvent :=
  { filledForm with
    formData := fun name =>
      if name = "pronunciation" then .text "" else filledForm.formData name }

/-- A world whose storage works and whose network answers 404 to every request. -/
def notFoundEnv : Env :=
  { secondFailsEnv with
    fetch := fun _ _ => .response 404 "Not Found" (some (.object "message")) }

/-- The options of a plain read, `makeRequest(endpoint)`. -/
def noOptions : RequestOptions :=
  { method := none, body := none, headers := [] }

end GitHubIntegration

/-!
# Service worker

A shallow embedding of `src/sw.js`.

Modelling conventions.

* The cache storage is the list of the named caches in the order of their
  creation; a cache is the list of its entries, a request URL with a response.
  The identity of a request is its URL, and a request whose method is not GET
  matches no entry. The string `/enhanced-dictionary.html` is the URL of the
  shell document.
* A promise is what it settles to. `caches.open(..).then(cache => cache.put(..))`,
  which the fetch listener does not wait for, is run to its end.
* The network is an `Env`: what `fetch` resolves to for the k-th request, or that
  it rejects. Every call of `fetch` is appended to `State.requests`.
* The two `fetch` listeners are run in the order of their registration. A
  listener that calls `event.respondWith` ends the dispatch: `respondWith` sets
  the stop-immediate-propagation flag of the event, so a later listener is not
  run for it.
-/

namespace ServiceWorker

def CACHE_NAME : String := "amharic-dictionary-v2.0.0"

def urlsToCache : List String :=
  [ "/enhanced-dictionary.html",
    "/manifest.json",
    "https://cdnjs.cloudflare.com/ajax/libs/font-awesome/6.4.0/css/all.min.css",
    "https://fonts.googleapis.com/css2?family=Noto+Sans+Arabic:wght@300;400;500;600;700&family=Amiri:wght@400;700&display=swap",
    "https://cdnjs.cloudflare.com/ajax/libs/animejs/3.2.1/anime.min.js" ]

/-- The fields of `event.request` the worker reads. -/
structure Request where
  method : String
  url : String
  destination : String
deriving DecidableEq, Repr

/-- A response. -/
structure Response where
  status : Nat
  statusText : String
  type : String
  headers : List (String × String)
  body : String
deriving DecidableEq, Repr

/-- One named cache. -/
structure Cache where
  name : String
  entries : List (String × Response)
deriving DecidableEq, Repr

/-- The global `caches`. -/
abbrev CacheStorage := List Cache

/-- What a promise settles to. -/
inductive Settled (α : Type) where
  | fulfilled (value : α)
  | rejected
deriving DecidableEq, Repr

/-- The network: the response to a request, given how many requests came
before, or `none` when `fetch` rejects. -/
structure Env where
  network : Nat → Request → Option Response

/-- The cache storage, the log of the network, and the two calls into the
worker's life cycle. -/
structure State where
  caches : CacheStorage
  /-- Every request handed to `fetch`, oldest first. -/
  requests : List Request
  /-- The call `self.skipWaiting()` was made. -/
  skipWaiting : Bool
  /-- The call `self.clients.claim()` was made. -/
  clientsClaimed : Bool
deriving DecidableEq, Repr

/-- The field `response.ok`. -/
def responseOk (status : Nat) : Bool :=
  decide (200 ≤ status) && decide (status ≤ 299)

/-- The method `url.startsWith(start)`. -/
def startsWith (url start : String) : Bool :=
  start.data.isPrefixOf url.data

/-! ## Cache storage -/

/-- The method `cache.match(request)`. -/
def cacheMatch (cache : Cache) (request : Request) : Option Response :=
  if request.method ≠ "GET" then none else cache.entries.lookup request.url

/-- The method `caches.match(request)`: the first match, the caches taken in
the order of their creation. -/
def cachesMatch (caches : CacheStorage) (request : Request) : Option Response :=
  caches.findSome? (fun cache => cacheMatch cache request)

/-- The cache of a given name, if there is one. -/
def cachesGet (cacheName : String) (caches : CacheStorage) : Option Cache :=
  caches.find? (fun cache => cache.name = cacheName)

/-- The method `caches.open(cacheName)`: the cache is created when there is none. -/
def cachesOpen (cacheName : String) (caches : CacheStorage) : CacheStorage :=
  if caches.any (fun cache => cache.name = cacheName) then caches
  else caches ++ [{ name := cacheName, entries := [] }]

/-- The method `cache.put(request, response)` on the cache of a given name: an
entry of the same request is replaced. -/
def cachePut (cacheName : String) (request : Request) (response : Response)
    (caches : CacheStorage) : CacheStorage :=
  caches.map (fun cache =>
    if cache.name = cacheName then
      { cache with
        entries := cache.entries.filter (fun entry => entry.1 ≠ request.url)
          ++ [(request.url, response)] }
    else cache)

/-- The method `caches.delete(cacheName)`. -/
def cachesDelete (cacheName : String) (caches : CacheStorage) : CacheStorage :=
  caches.filter (fun cache => cache.name ≠ cacheName)

/-- The method `caches.keys()`. -/
def cachesKeys (caches : CacheStorage) : List String :=
  caches.map (fun cache => cache.name)

/-- The request a URL string stands for. -/
def requestOfUrl (url : String) : Request :=
  { method := "GET", url := url, destination := "" }

/-! ## Network -/

/-- The function `fetch(request)`. -/
def fetch (env : Env) (request : Request) (s : State) : Option Response × State :=
  (env.network s.requests.length request, { s with requests := s.requests ++ [request] })

/-- One `fetch` per request, in turn. -/
def fetchAll (env : Env) : List Request → State → List (Option Response) × State
  | [], s => ([], s)
  | request :: rest, s =>
    let r1 := fetch env request s
    let r2 := fetchAll env rest r1.2
    (r1.1 :: r2.1, r2.2)

/-- The method `cache.addAll(urls)` on the cache of a given name: every URL is
fetched; when one fetch rejects or one response is not ok (or is partial, 206)
the promise rejects and nothing is stored; otherwise every response is stored. -/
def cacheAddAll (env : Env) (cacheName : String) (urls : List String) (s : State) :
    Settled Unit × State :=
  let requests := urls.map requestOfUrl
  let fetched := fetchAll env requests s
  let s1 := fetched.2
  if fetched.1.all (fun r => match r with
      | some response => responseOk response.status && response.status != 206
      | none => false) then
    (.fulfilled (),
      { s1 with
        caches := (requests.zip fetched.1).foldl
          (fun caches entry => match entry.2 with
            | some response => cachePut cacheName entry.1 response caches
            | none => caches)
          s1.caches })
  else (.rejected, s1)

/-! ## Life cycle -/

/-- The `install` listener, as the promise handed to `event.waitUntil`: open the
cache, add the manifest, then `skipWaiting`; a rejection on the way is caught and
logged, which fulfils the promise. -/
def install (env : Env) (s : State) : Settled Unit × State :=
  let s1 := { s with caches := cachesOpen CACHE_NAME s.caches }
  match cacheAddAll env CACHE_NAME urlsToCache s1 with
  | (.fulfilled _, s2) => (.fulfilled (), { s2 with skipWaiting := true })
  | (.rejected, s2) => (.fulfilled (), s2)

/-- The `activate` listener, as the promise handed to `event.waitUntil`: every
key other than `CACHE_NAME` is deleted, then the clients are claimed. -/
def activate (s : State) : Settled Unit × State :=
  let cacheNames := cachesKeys s.caches
  let caches1 := cacheNames.foldl
    (fun caches cacheName =>
      if cacheName ≠ CACHE_NAME then cachesDelete cacheName caches else caches)
    s.caches
  (.fulfilled (), { s with caches := caches1, clientsClaimed := true })

/-! ## Fetch -/

/-- The response built when the network fails for a request that is not a
navigation. -/
def offlineResponse : Response :=
  { status := 503
    statusText := "Service Unavailable"
    type := "default"
    headers := [("Content-Type", "application/json")]
    body := "\x7b\"error\":\"Offline\",\"message\":\"هذا المحتوى غير متوفر بدون اتصال بالإنترنت\"\x7d" }

/-- The first `fetch` listener. The first component is `none` when the listener
returns without `event.respondWith`, and otherwise what the promise handed to
`respondWith` settles to (`fulfilled none` is a promise fulfilled with
`undefined`). -/
def fetchListener (env : Env) (request : Request) (s : State) :
    Option (Settled (Option Response)) × State :=
  if request.method ≠ "GET" then (none, s)
  else if startsWith request.url "chrome-extension://" then (none, s)
  else
    match cachesMatch s.caches request with
    | some response => (some (.fulfilled (some response)), s)
    | none =>
      match fetch env request s with
      | (some response, s1) =>
        if response.status ≠ 200 ∨ response.type ≠ "basic" then
          (some (.fulfilled (some response)), s1)
        else
          (some (.fulfilled (some response)),
            { s1 with
              caches := cachePut CACHE_NAME request response (cachesOpen CACHE_NAME s1.caches) })
      | (none, s1) =>
        if request.destination = "document" then
          (some (.fulfilled (cachesMatch s1.caches (requestOfUrl "/enhanced-dictionary.html"))),
            s1)
        else (some (.fulfilled (some offlineResponse)), s1)

/-- The function `handleRequest`: the network first; when it fails, the cached
response if there is one, else the failure is thrown again. -/
def handleRequest (env : Env) (request : Request) (s : State) : Settled Response × State :=
  match fetch env request s with
  | (some response, s1) => (.fulfilled response, s1)
  | (none, s1) =>
    match cachesMatch s1.caches request with
    | some cachedResponse => (.fulfilled cachedResponse, s1)
    | none => (.rejected, s1)

/-- The second `fetch` listener: it answers every request it is run for with
`handleRequest` (the time it logs is not recorded). -/
def monitoringListener (env : Env) (request : Request) (s : State) :
    Option (Settled (Option Response)) × State :=
  match handleRequest env request s with
  | (.fulfilled response, s1) => (some (.fulfilled (some response)), s1)
  | (.rejected, s1) => (some .rejected, s1)

/-- The dispatch of a `fetch` event to the two listeners: the second is run only
when the first did not call `respondWith`. The first component is `none` when no
listener answered. -/
def dispatchFetch (env : Env) (request : Request) (s : State) :
    Option (Settled (Option Response)) × State :=
  match fetchListener env request s with
  | (some answer, s1) => (some answer, s1)
  | (none, s1) => monitoringListener env request s1

/-! ## Concrete scenarios -/

def shellResponse : Response :=
  { status := 200
    statusText := "OK"
    type := "basic"
    headers := [("Content-Type", "text/html")]
    body := "<!doctype html>" }

def scriptResponse : Response :=
  { status := 200
    statusText := "OK"
    type := "basic"
    headers := [("Content-Type", "text/javascript")]
    body := "console.log(1)" }

/-- A worker whose only cache is the current one, holding the shell document. -/
def activeState : State :=
  { caches := [{ name := CACHE_NAME, entries := [("/enhanced-dictionary.html", shellResponse)] }]
    requests := []
    skipWaiting := true
    clientsClaimed := true }

/-- A worker before its installation, with the cache of an older generation. -/
def freshState : State :=
  { caches := [{ name := "amharic-dictionary-v1.0.0",
                 entries := [("/enhanced-dictionary.html", shellResponse)] }]
    requests := []
    skipWaiting := false
    clientsClaimed := false }

/-- A network that answers every request with the script. -/
def onlineEnv : Env :=
  { network := fun _ _ => some scriptResponse }

/-- A network that is unreachable. -/
def unreachableEnv : Env :=
  { network := fun _ _ => none }

/-- A network that answers every request but the one for the manifest. -/
def manifestMissingEnv : Env :=
  { network := fun _ request =>
      if request.url = "/manifest.json" then none else some scriptResponse }

def scriptRequest : Request :=
  { method := "GET", url := "/app.js", destination := "script" }

def pageRequest : Request :=
  { method := "GET", url := "/about.html", destination := "document" }

def shellRequest : Request :=
  { method := "GET", url := "/enhanced-dictionary.html", destination := "document" }

def postRequest : Request :=
  { method := "POST", url := "/api/contributions", destination := "" }

/-- An older answer to the script request. -/
def staleResponse : Response :=
  { status := 200
    statusText := "OK"
    type := "basic"
    headers := [("Content-Type", "text/javascript")]
    body := "console.log(0)" }

/-- The current cache, holding the shell document and the script. -/
def currentCache : Cache :=
  { name := CACHE_NAME
    entries := [("/enhanced-dictionary.html", shellResponse), ("/app.js", scriptResponse)] }

/-- A cache of another name, holding an older answer to the script request. -/
def otherCache : Cache :=
  { name := "amharic-dictionary-v1.0.0", entries := [("/app.js", staleResponse)] }

/-- A storage in which the other cache was created before the current one. -/
def otherFirstState : State :=
  { caches := [otherCache, currentCache]
    requests := []
    skipWaiting := true
    clientsClaimed := true }

/-- A storage in which the other cache was created after the current one. -/
def currentFirstState : State :=
  { caches := [currentCache, otherCache]
    requests := []
    skipWaiting := true
    clientsClaimed := true }

end ServiceWorker

namespace GitHubIntegration

/-! ## Frame lemmas -/

theorem makeRequest_state (env : Env) (endpoint : String) (options : RequestOptions)
    (s : State) :
    (makeRequest env endpoint options s).2
      = { s with requests := s.requests ++ [requestOf endpoint options s] } := by
  unfold makeRequest
  dsimp only
  cases env.fetch s.requests.length (requestOf endpoint options s) with
  | rejected => rfl
  | response status statusText json =>
    dsimp only
    split
    · rfl
    · cases json <;> rfl

/-- A connected `createContributionIssue` never throws and sends exactly the
issue request of its contribution. -/
theorem createContributionIssue_connected (env : Env) (c : Contribution) (s : State)
    (h : s.isConnected = true) :
    ∃ v message type,
      createContributionIssue env c s
        = (.ok v, showNotification message type
            { s with requests := s.requests ++ [requestOf issuesEndpoint (issueOptions env c) s] }) := by
  have hs := makeRequest_state env issuesEndpoint (issueOptions env c) s
  unfold createContributionIssue
  rw [if_neg (by simp [h])]
  rcases hm : makeRequest env issuesEndpoint (issueOptions env c) s with ⟨r, s1⟩
  rw [hm] at hs
  dsimp only at hs
  subst hs
  cases r with
  | ok issue => exact ⟨issue, _, _, rfl⟩
  | error e => exact ⟨.null, _, _, rfl⟩

theorem syncLoop_connected (env : Env) (q : List Contribution) (s : State)
    (h : s.isConnected = true) :
    (syncLoop env q s).requests
        = s.requests ++ q.map (fun c => requestOf issuesEndpoint (issueOptions env c) s)
      ∧ (syncLoop env q s).isConnected = s.isConnected
      ∧ (syncLoop env q s).token = s.token
      ∧ (syncLoop env q s).offline_contributions = s.offline_contributions := by
  induction q generalizing s with
  | nil => simp [syncLoop]
  | cons c rest ih =>
    obtain ⟨v, message, type, hc⟩ := createContributionIssue_connected env c s h
    simp only [syncLoop, hc]
    have := ih (showNotification message type
      { s with requests := s.requests ++ [requestOf issuesEndpoint (issueOptions env c) s] })
      (by simpa [showNotification] using h)
    simp only [showNotification] at this ⊢
    obtain ⟨h1, h2, h3, h4⟩ := this
    refine ⟨?_, h2, h3, h4⟩
    rw [h1]
    simp [requestOf, defaultHeaders]

theorem createContributionIssue_success (env : Env) (c : Contribution) (s : State)
    (status : Nat) (statusText : String) (v : JsValue)
    (h : s.isConnected = true)
    (hf : env.fetch s.requests.length (requestOf issuesEndpoint (issueOptions env c) s)
      = .response status statusText (some v))
    (hok : responseOk status = true) :
    createContributionIssue env c s
      = (.ok v, showNotification "تم إرسال المساهمة كطلب مراجعة" "success"
          { s with requests := s.requests ++ [requestOf issuesEndpoint (issueOptions env c) s] }) := by
  unfold createContributionIssue
  rw [if_neg (by simp [h])]
  simp [makeRequest, hf, hok]

theorem createContributionIssue_failure (env : Env) (c : Contribution) (s : State)
    (h : s.isConnected = true)
    (hf : env.fetch s.requests.length (requestOf issuesEndpoint (issueOptions env c) s)
        = .rejected
      ∨ ∃ status statusText json,
          env.fetch s.requests.length (requestOf issuesEndpoint (issueOptions env c) s)
            = .response status statusText json ∧ responseOk status = false) :
    createContributionIssue env c s
      = (.ok .null, showNotification "فشل في إرسال المساهمة" "error"
          { s with requests := s.requests ++ [requestOf issuesEndpoint (issueOptions env c) s] }) := by
  unfold createContributionIssue
  rw [if_neg (by simp [h])]
  rcases hf with hf | ⟨status, statusText, json, hf, hok⟩
  · simp [makeRequest, hf]
  · simp [makeRequest, hf, hok]

theorem storeOfflineContribution_ok (env : Env) (c : Contribution) (s : State)
    (hd : env.storageDenied = false) (hf : env.storageFull = false) :
    storeOfflineContribution env c s
      = (.ok (), { s with offline_contributions := some (persistedQueue s ++ [c]) }) := by
  simp [storeOfflineContribution, getItemOfflineContributions, setItemOfflineContributions,
    persistedQueue, hd, hf]

theorem storeOfflineContribution_fails (env : Env) (c : Contribution) (s : State)
    (h : env.storageDenied = true ∨ env.storageFull = true) :
    ∃ e, storeOfflineContribution env c s = (.error e, s) := by
  unfold storeOfflineContribution getItemOfflineContributions setItemOfflineContributions
  cases hd : env.storageDenied
  · rcases h with h | h
    · simp [hd] at h
    · exact ⟨.quotaExceededError, by simp [h]⟩
  · exact ⟨.securityError, by simp⟩

theorem submitWordSuggestion_connected_success (env : Env) (now : String) (w : WordData)
    (s : State) (status : Nat) (statusText : String) (v : JsValue)
    (hc : s.isConnected = true) (hd : env.storageDenied = false)
    (hf : env.storageFull = false)
    (hfetch : env.fetch s.requests.length
        (requestOf issuesEndpoint (issueOptions env (contributionOf env now w s)) s)
      = .response status statusText (some v))
    (hok : responseOk status = true) :
    submitWordSuggestion env now w s
      = (.ok v, showNotification "تم إرسال المساهمة كطلب مراجعة" "success"
          { s with
            offline_contributions := some (persistedQueue s ++ [contributionOf env now w s])
            requests := s.requests
              ++ [requestOf issuesEndpoint (issueOptions env (contributionOf env now w s)) s] }) := by
  have hstore := storeOfflineContribution_ok env (contributionOf env now w s) s hd hf
  have hissue := createContributionIssue_success env (contributionOf env now w s)
    { s with offline_contributions := some (persistedQueue s ++ [contributionOf env now w s]) }
    status statusText v hc hfetch hok
  unfold submitWordSuggestion
  dsimp only
  rw [hstore]
  dsimp only
  rw [if_pos hc, hissue]
  rfl

theorem submitWordSuggestion_connected_failure (env : Env) (now : String) (w : WordData)
    (s : State)
    (hc : s.isConnected = true) (hd : env.storageDenied = false)
    (hf : env.storageFull = false)
    (hfetch : env.fetch s.requests.length
          (requestOf issuesEndpoint (issueOptions env (contributionOf env now w s)) s)
        = .rejected
      ∨ ∃ status statusText json,
          env.fetch s.requests.length
              (requestOf issuesEndpoint (issueOptions env (contributionOf env now w s)) s)
            = .response status statusText json ∧ responseOk status = false) :
    submitWordSuggestion env now w s
      = (.ok .null, showNotification "فشل في إرسال المساهمة" "error"
          { s with
            offline_contributions := some (persistedQueue s ++ [contributionOf env now w s])
            requests := s.requests
              ++ [requestOf issuesEndpoint (issueOptions env (contributionOf env now w s)) s] }) := by
  have hstore := storeOfflineContribution_ok env (contributionOf env now w s) s hd hf
  have hissue := createContributionIssue_failure env (contributionOf env now w s)
    { s with offline_contributions := some (persistedQueue s ++ [contributionOf env now w s]) }
    hc hfetch
  unfold submitWordSuggestion
  dsimp only
  rw [hstore]
  dsimp only
  rw [if_pos hc, hissue]
  rfl

theorem containsText_append_left (t u p : String) (h : containsText t p) :
    containsText (t ++ u) p := by
  unfold containsText at h ⊢
  rw [String.data_append]
  exact h.trans (List.infix_append' [] t.data u.data)

theorem containsText_append_self (t p : String) : containsText (t ++ p) p := by
  unfold containsText
  rw [String.data_append]
  exact (List.suffix_append t.data p.data).isInfix

theorem spreadHeaders_nil (a : List (String × String)) : spreadHeaders a [] = a := by
  simp [spreadHeaders]

theorem submitWordSuggestion_storage_failure (env : Env) (now : String) (w : WordData)
    (s : State) (h : env.storageDenied = true ∨ env.storageFull = true) :
    ∃ e, submitWordSuggestion env now w s = (.error e, s) := by
  obtain ⟨e, he⟩ := storeOfflineContribution_fails env (contributionOf env now w s) s h
  refine ⟨e, ?_⟩
  unfold submitWordSuggestion
  dsimp only
  rw [he]

/-! ## The claims -/

/-- C1, the code at the failing input. Queue `[A, B, C]`, connected session, the
request for `B` is rejected and the other two are answered 201: the drain sends
three requests and reports the failure of `B`, then removes the whole key, so the
persisted queue is empty afterwards and `B` is not retained. -/
theorem syncOfflineContributions_partial_failure_clears_queue :
    persistedQueue connectedState = [itemA, itemB, itemC]
      ∧ (syncOfflineContributions secondFailsEnv connectedState).1 = .ok ()
      ∧ (syncOfflineContributions secondFailsEnv connectedState).2.requests.length = 3
      ∧ (syncOfflineContributions secondFailsEnv connectedState).2.effects
          = [ Effect.notification "تم إرسال المساهمة كطلب مراجعة" "success",
              Effect.notification "فشل في إرسال المساهمة" "error",
              Effect.notification "تم إرسال المساهمة كطلب مراجعة" "success",
              Effect.notification "تم مزامنة جميع المساهمات المحفوظة" "success" ]
      ∧ persistedQueue (syncOfflineContributions secondFailsEnv connectedState).2 = []
      ∧ persistedQueue (syncOfflineContributions secondFailsEnv connectedState).2 ≠ [itemB] :=
  ⟨by decide, rfl, by decide, by decide, by decide, by decide⟩

/-- C6. A drain of the queue `[c1, ..., cn]` by a connected session sends exactly
`n` requests, whatever the network answers to each of them: the k-th is the
createIssue request of the k-th item, a POST to the issues endpoint of the
repository whose title ends in the word of that item and whose body contains its
word, pronunciation, translation, category, level and contributor. -/
theorem syncOfflineContributions_attempts_every_item (env : Env) (s : State)
    (hc : s.isConnected = true) (hd : env.storageDenied = false) :
    (syncOfflineContributions env s).2.requests
        = s.requests
          ++ (persistedQueue s).map (fun c =>
              { url := "https://api.github.com/repos/amharic-dictionary/enhanced-dictionary/issues"
                method := some "POST"
                body := some
                  { title := "تعريف كلمة جديدة: " ++ interpolate c.amharic
                    body := issueBody env c
                    labels := ["contribution", "word-definition", "new-entry"] }
                headers :=
                  [("Accept", "application/vnd.github.v3+json"),
                    ("Content-Type", "application/json")]
                  ++ (match s.token with
                    | some token =>
                      if token = "" then [] else [("Authorization", "token " ++ token)]
                    | none => []) })
      ∧ (syncOfflineContributions env s).2.requests.length
        = s.requests.length + (persistedQueue s).length
      ∧ (∀ c : Contribution,
          containsText (issueBody env c) (interpolate c.amharic)
            ∧ containsText (issueBody env c) (interpolate c.pronunciation)
            ∧ containsText (issueBody env c) (interpolate c.arabic)
            ∧ containsText (issueBody env c) (interpolate c.category)
            ∧ containsText (issueBody env c) (interpolate c.level)
            ∧ containsText (issueBody env c) c.contributor) := by
  have hl := (syncLoop_connected env (persistedQueue s) s hc).1
  have hr : (syncOfflineContributions env s).2.requests
      = (syncLoop env (persistedQueue s) s).requests := by
    simp [syncOfflineContributions, getItemOfflineContributions, removeItemOfflineContributions,
      persistedQueue, showNotification, hd]
  have hreq : ∀ c : Contribution, requestOf issuesEndpoint (issueOptions env c) s
      = { url := "https://api.github.com/repos/amharic-dictionary/enhanced-dictionary/issues"
          method := some "POST"
          body := some
            { title := "تعريف كلمة جديدة: " ++ interpolate c.amharic
              body := issueBody env c
              labels := ["contribution", "word-definition", "new-entry"] }
          headers :=
            [("Accept", "application/vnd.github.v3+json"), ("Content-Type", "application/json")]
            ++ (match s.token with
              | some token => if token = "" then [] else [("Authorization", "token " ++ token)]
              | none => []) } := by
    intro c
    have hurl : apiBaseUrl ++ issuesEndpoint
        = "https://api.github.com/repos/amharic-dictionary/enhanced-dictionary/issues" := by
      decide
    unfold requestOf
    rw [hurl]
    simp only [issueOptions, spreadHeaders_nil, issueTitle, defaultHeaders]
    cases ht : s.token with
    | none => rfl
    | some token =>
      by_cases hn : token = ""
      · subst hn
        rfl
      · simp [stored, truthy, interpolate, hn]
  have hmap : (persistedQueue s).map
        (fun c => requestOf issuesEndpoint (issueOptions env c) s)
      = (persistedQueue s).map (fun c =>
          ({ url := "https://api.github.com/repos/amharic-dictionary/enhanced-dictionary/issues"
             method := some "POST"
             body := some
               { title := "تعريف كلمة جديدة: " ++ interpolate c.amharic
                 body := issueBody env c
                 labels := ["contribution", "word-definition", "new-entry"] }
             headers :=
               [("Accept", "application/vnd.github.v3+json"),
                 ("Content-Type", "application/json")]
               ++ (match s.token with
                 | some token =>
                   if token = "" then [] else [("Authorization", "token " ++ token)]
                 | none => []) } : Request)) :=
    List.map_congr_left (fun c _ => hreq c)
  refine ⟨?_, ?_, ?_⟩
  · rw [hr, hl, hmap]
  · rw [hr, hl]
    simp
  · intro c
    unfold issueBody
    refine ⟨?_, ?_, ?_, ?_, ?_, ?_⟩
    · iterate 15 apply containsText_append_left
      exact containsText_append_self _ _
    · iterate 13 apply containsText_append_left
      exact containsText_append_self _ _
    · iterate 11 apply containsText_append_left
      exact containsText_append_self _ _
    · iterate 7 apply containsText_append_left
      exact containsText_append_self _ _
    · iterate 5 apply containsText_append_left
      exact containsText_append_self _ _
    · iterate 3 apply containsText_append_left
      exact containsText_append_self _ _

theorem syncOfflineContributions_attempts_every_item_witness :
    connectedState.isConnected = true ∧ secondFailsEnv.storageDenied = false
      ∧ (syncOfflineContributions secondFailsEnv connectedState).2.requests
        = connectedState.requests
          ++ (persistedQueue connectedState).map (fun c =>
              { url := "https://api.github.com/repos/amharic-dictionary/enhanced-dictionary/issues"
                method := some "POST"
                body := some
                  { title := "تعريف كلمة جديدة: " ++ interpolate c.amharic
                    body := issueBody secondFailsEnv c
                    labels := ["contribution", "word-definition", "new-entry"] }
                headers :=
                  [("Accept", "application/vnd.github.v3+json"),
                    ("Content-Type", "application/json"),
                    ("Authorization", "token ghp_token")] })
      ∧ (syncOfflineContributions secondFailsEnv connectedState).2.requests.length
        = connectedState.requests.length + (persistedQueue connectedState).length
      ∧ (∀ c : Contribution,
          containsText (issueBody secondFailsEnv c) (interpolate c.amharic)
            ∧ containsText (issueBody secondFailsEnv c) (interpolate c.pronunciation)
            ∧ containsText (issueBody secondFailsEnv c) (interpolate c.arabic)
            ∧ containsText (issueBody secondFailsEnv c) (interpolate c.category)
            ∧ containsText (issueBody secondFailsEnv c) (interpolate c.level)
            ∧ containsText (issueBody secondFailsEnv c) c.contributor) :=
  ⟨rfl, rfl, syncOfflineContributions_attempts_every_item secondFailsEnv connectedState rfl rfl⟩

/-- C8. With the storage working, `storeOfflineContribution(c)` returns normally
and leaves the queue equal to the old queue followed by `c`: the length grows by
one and every old entry keeps its value and its position. -/
theorem storeOfflineContribution_appends (env : Env) (c : Contribution) (s : State)
    (hd : env.storageDenied = false) (hf : env.storageFull = false) :
    (storeOfflineContribution env c s).1 = .ok ()
      ∧ persistedQueue (storeOfflineContribution env c s).2 = persistedQueue s ++ [c]
      ∧ (persistedQueue (storeOfflineContribution env c s).2).length
        = (persistedQueue s).length + 1
      ∧ ∀ i, i < (persistedQueue s).length →
          (persistedQueue (storeOfflineContribution env c s).2)[i]? = (persistedQueue s)[i]? := by
  rw [storeOfflineContribution_ok env c s hd hf]
  refine ⟨rfl, by simp [persistedQueue], by simp [persistedQueue], ?_⟩
  intro i hi
  simp only [persistedQueue] at hi ⊢
  simp [List.getElem?_append_left hi]

theorem storeOfflineContribution_appends_witness :
    secondFailsEnv.storageDenied = false ∧ secondFailsEnv.storageFull = false
      ∧ (storeOfflineContribution secondFailsEnv itemA connectedState).1 = .ok ()
      ∧ persistedQueue (storeOfflineContribution secondFailsEnv itemA connectedState).2
        = persistedQueue connectedState ++ [itemA]
      ∧ (persistedQueue (storeOfflineContribution secondFailsEnv itemA connectedState).2).length
        = (persistedQueue connectedState).length + 1
      ∧ ∀ i, i < (persistedQueue connectedState).length →
          (persistedQueue (storeOfflineContribution secondFailsEnv itemA connectedState).2)[i]?
            = (persistedQueue connectedState)[i]? :=
  ⟨rfl, rfl, storeOfflineContribution_appends secondFailsEnv itemA connectedState rfl rfl⟩

/-- C10. Draining an empty queue sends no request and leaves the persisted
queue and the session fields as they were. -/
theorem syncOfflineContributions_empty_noop (env : Env) (s : State)
    (h : persistedQueue s = []) :
    (syncOfflineContributions env s).2.requests = s.requests
      ∧ persistedQueue (syncOfflineContributions env s).2 = persistedQueue s
      ∧ (syncOfflineContributions env s).2.token = s.token
      ∧ (syncOfflineContributions env s).2.isConnected = s.isConnected
      ∧ (syncOfflineContributions env s).2.github_token = s.github_token
      ∧ (syncOfflineContributions env s).2.current_username = s.current_username := by
  have h0 : s.offline_contributions.getD [] = [] := h
  cases hd : env.storageDenied
  · simp [syncOfflineContributions, getItemOfflineContributions, removeItemOfflineContributions,
      showNotification, hd, h0, syncLoop, persistedQueue]
  · simp [syncOfflineContributions, getItemOfflineContributions, hd]

theorem syncOfflineContributions_empty_noop_witness :
    persistedQueue emptyQueueState = []
      ∧ (syncOfflineContributions secondFailsEnv emptyQueueState).2.requests
        = emptyQueueState.requests
      ∧ persistedQueue (syncOfflineContributions secondFailsEnv emptyQueueState).2
        = persistedQueue emptyQueueState
      ∧ (syncOfflineContributions secondFailsEnv emptyQueueState).2.token = emptyQueueState.token
      ∧ (syncOfflineContributions secondFailsEnv emptyQueueState).2.isConnected
        = emptyQueueState.isConnected
      ∧ (syncOfflineContributions secondFailsEnv emptyQueueState).2.github_token
        = emptyQueueState.github_token
      ∧ (syncOfflineContributions secondFailsEnv emptyQueueState).2.current_username
        = emptyQueueState.current_username :=
  ⟨rfl, syncOfflineContributions_empty_noop secondFailsEnv emptyQueueState rfl⟩

/-- C4. A submission by a session that is not connected, with the storage
working, returns `null`, leaves the queue equal to the old queue followed by the
contribution (one entry more), and sends no request. The contribution is the
submitted word data, field by field, with the time of the submission, the stored
user name (or the anonymous name) and the status `pending`. -/
theorem submitWordSuggestion_unauthenticated_enqueues (env : Env) (now : String)
    (w : WordData) (s : State)
    (hc : s.isConnected = false) (hd : env.storageDenied = false)
    (hf : env.storageFull = false) :
    (submitWordSuggestion env now w s).1 = .ok .null
      ∧ persistedQueue (submitWordSuggestion env now w s).2
        = persistedQueue s ++ [contributionOf env now w s]
      ∧ contributionOf env now w s
        = { amharic := w.amharic
            pronunciation := w.pronunciation
            arabic := w.arabic
            usage := w.usage
            category := w.category
            level := w.level
            timestamp := now
            contributor := match s.current_username with
              | some name => if name = "" then "مجهول" else name
              | none => "مجهول"
            status := "pending" }
      ∧ (contributionOf env now w s).status = "pending"
      ∧ (persistedQueue (submitWordSuggestion env now w s).2).length
        = (persistedQueue s).length + 1
      ∧ (submitWordSuggestion env now w s).2.requests = s.requests := by
  have hrecord : contributionOf env now w s
      = { amharic := w.amharic
          pronunciation := w.pronunciation
          arabic := w.arabic
          usage := w.usage
          category := w.category
          level := w.level
          timestamp := now
          contributor := match s.current_username with
            | some name => if name = "" then "مجهول" else name
            | none => "مجهول"
          status := "pending" } := by
    unfold contributionOf getCurrentUser
    rw [hd]
    cases hu : s.current_username with
    | none => rfl
    | some name =>
      by_cases hn : name = ""
      · subst hn
        rfl
      · simp [jsOr, truthy, stored, interpolate, hn]
  refine ⟨?_, ?_, hrecord, rfl, ?_, ?_⟩
  all_goals
    unfold submitWordSuggestion
    simp [storeOfflineContribution_ok env _ s hd hf, hc, showNotification, persistedQueue]

theorem submitWordSuggestion_unauthenticated_enqueues_witness :
    anonymousState.isConnected = false ∧ secondFailsEnv.storageDenied = false
      ∧ secondFailsEnv.storageFull = false
      ∧ (submitWordSuggestion secondFailsEnv "2024-01-01T11:00:00.000Z" sampleWord
          anonymousState).1 = .ok .null
      ∧ persistedQueue (submitWordSuggestion secondFailsEnv "2024-01-01T11:00:00.000Z"
          sampleWord anonymousState).2
        = persistedQueue anonymousState
          ++ [contributionOf secondFailsEnv "2024-01-01T11:00:00.000Z" sampleWord anonymousState]
      ∧ contributionOf secondFailsEnv "2024-01-01T11:00:00.000Z" sampleWord anonymousState
        = { amharic := .text "ሰላም"
            pronunciation := .text "selam"
            arabic := .text "سلام"
            usage := .undefined
            category := .text "greetings"
            level := .text "beginner"
            timestamp := "2024-01-01T11:00:00.000Z"
            contributor := "مجهول"
            status := "pending" }
      ∧ (contributionOf secondFailsEnv "2024-01-01T11:00:00.000Z" sampleWord
          anonymousState).status = "pending"
      ∧ (persistedQueue (submitWordSuggestion secondFailsEnv "2024-01-01T11:00:00.000Z"
          sampleWord anonymousState).2).length
        = (persistedQueue anonymousState).length + 1
      ∧ (submitWordSuggestion secondFailsEnv "2024-01-01T11:00:00.000Z" sampleWord
          anonymousState).2.requests = anonymousState.requests :=
  ⟨rfl, rfl, rfl,
    submitWordSuggestion_unauthenticated_enqueues secondFailsEnv "2024-01-01T11:00:00.000Z"
      sampleWord anonymousState rfl rfl rfl⟩

/-- C2, as the code has it. Connected session, storage working, the issue
request answered with an ok status and a JSON body: `submitWordSuggestion`
returns the issue and the contribution is still in the persisted queue, which is
the old queue followed by the contribution. The contribution is the submitted
word data, field by field, with the time of the submission, the stored user name
(or the anonymous name) and the status `pending`. -/
theorem submitWordSuggestion_success_keeps_contribution_queued (env : Env) (now : String)
    (w : WordData) (s : State) (status : Nat) (statusText : String) (v : JsValue)
    (hc : s.isConnected = true) (hd : env.storageDenied = false)
    (hf : env.storageFull = false)
    (hfetch : env.fetch s.requests.length
        (requestOf issuesEndpoint (issueOptions env (contributionOf env now w s)) s)
      = .response status statusText (some v))
    (hok : responseOk status = true) :
    (submitWordSuggestion env now w s).1 = .ok v
      ∧ persistedQueue (submitWordSuggestion env now w s).2
        = persistedQueue s ++ [contributionOf env now w s]
      ∧ contributionOf env now w s
        = { amharic := w.amharic
            pronunciation := w.pronunciation
            arabic := w.arabic
            usage := w.usage
            category := w.category
            level := w.level
            timestamp := now
            contributor := match s.current_username with
              | some name => if name = "" then "مجهول" else name
              | none => "مجهول"
            status := "pending" }
      ∧ (contributionOf env now w s).status = "pending"
      ∧ contributionOf env now w s ∈ persistedQueue (submitWordSuggestion env now w s).2 := by
  have hrecord : contributionOf env now w s
      = { amharic := w.amharic
          pronunciation := w.pronunciation
          arabic := w.arabic
          usage := w.usage
          category := w.category
          level := w.level
          timestamp := now
          contributor := match s.current_username with
            | some name => if name = "" then "مجهول" else name
            | none => "مجهول"
          status := "pending" } := by
    unfold contributionOf getCurrentUser
    rw [hd]
    cases hu : s.current_username with
    | none => rfl
    | some name =>
      by_cases hn : name = ""
      · subst hn
        rfl
      · simp [jsOr, truthy, stored, interpolate, hn]
  rw [submitWordSuggestion_connected_success env now w s status statusText v hc hd hf hfetch hok]
  refine ⟨rfl, ?_, hrecord, rfl, ?_⟩ <;>
    simp [showNotification, persistedQueue]

theorem submitWordSuggestion_success_keeps_contribution_queued_witness :
    connectedState.isConnected = true ∧ secondFailsEnv.storageDenied = false
      ∧ secondFailsEnv.storageFull = false ∧ responseOk 201 = true
      ∧ (submitWordSuggestion secondFailsEnv "2024-01-01T11:00:00.000Z" sampleWord
          connectedState).1 = .ok (.object "issue")
      ∧ persistedQueue (submitWordSuggestion secondFailsEnv "2024-01-01T11:00:00.000Z"
          sampleWord connectedState).2
        = persistedQueue connectedState
          ++ [contributionOf secondFailsEnv "2024-01-01T11:00:00.000Z" sampleWord connectedState]
      ∧ contributionOf secondFailsEnv "2024-01-01T11:00:00.000Z" sampleWord connectedState
        = { amharic := .text "ሰላም"
            pronunciation := .text "selam"
            arabic := .text "سلام"
            usage := .undefined
            category := .text "greetings"
            level := .text "beginner"
            timestamp := "2024-01-01T11:00:00.000Z"
            contributor := "مجهول"
            status := "pending" }
      ∧ (contributionOf secondFailsEnv "2024-01-01T11:00:00.000Z" sampleWord
          connectedState).status = "pending"
      ∧ contributionOf secondFailsEnv "2024-01-01T11:00:00.000Z" sampleWord connectedState
        ∈ persistedQueue (submitWordSuggestion secondFailsEnv "2024-01-01T11:00:00.000Z"
            sampleWord connectedState).2 :=
  ⟨rfl, rfl, rfl, rfl,
    submitWordSuggestion_success_keeps_contribution_queued secondFailsEnv
      "2024-01-01T11:00:00.000Z" sampleWord connectedState 201 "Created" (.object "issue")
      rfl rfl rfl rfl rfl⟩

/-- C2, the claim as stated fails. Connected session with queue `[A, B, C]`, the
issue request answered 201: the submission returns the issue, the persisted
queue is not what it was before the submission, and the contribution is in it,
as the fourth entry. -/
theorem submitWordSuggestion_success_queue_differs :
    connectedState.isConnected = true
      ∧ (submitWordSuggestion secondFailsEnv "2024-01-01T11:00:00.000Z" sampleWord
          connectedState).1 = .ok (.object "issue")
      ∧ persistedQueue (submitWordSuggestion secondFailsEnv "2024-01-01T11:00:00.000Z"
          sampleWord connectedState).2
        = [ itemA, itemB, itemC,
            { amharic := .text "ሰላም"
              pronunciation := .text "selam"
              arabic := .text "سلام"
              usage := .undefined
              category := .text "greetings"
              level := .text "beginner"
              timestamp := "2024-01-01T11:00:00.000Z"
              contributor := "مجهول"
              status := "pending" } ]
      ∧ ¬ (persistedQueue (submitWordSuggestion secondFailsEnv "2024-01-01T11:00:00.000Z"
            sampleWord connectedState).2 = persistedQueue connectedState)
      ∧ contributionOf secondFailsEnv "2024-01-01T11:00:00.000Z" sampleWord connectedState
        ∈ persistedQueue (submitWordSuggestion secondFailsEnv "2024-01-01T11:00:00.000Z"
            sampleWord connectedState).2 :=
  ⟨rfl, rfl, by decide, by decide, by decide⟩

/-- C7. Connected session, storage working, the issue request rejected by the
network or answered with a status outside 200-299: `submitWordSuggestion` does
not throw, returns `null`, and the persisted queue is the old queue followed by
one copy of the contribution; the one request sent is the POST for that
contribution. The contribution is the submitted word data, field by field, with
the time of the submission, the stored user name (or the anonymous name) and the
status `pending`. -/
theorem submitWordSuggestion_remote_failure_keeps_queued (env : Env) (now : String)
    (w : WordData) (s : State)
    (hc : s.isConnected = true) (hd : env.storageDenied = false)
    (hf : env.storageFull = false)
    (hfetch : env.fetch s.requests.length
          (requestOf issuesEndpoint (issueOptions env (contributionOf env now w s)) s)
        = .rejected
      ∨ ∃ status statusText json,
          env.fetch s.requests.length
              (requestOf issuesEndpoint (issueOptions env (contributionOf env now w s)) s)
            = .response status statusText json ∧ responseOk status = false) :
    (submitWordSuggestion env now w s).1 = .ok .null
      ∧ persistedQueue (submitWordSuggestion env now w s).2
        = persistedQueue s ++ [contributionOf env now w s]
      ∧ contributionOf env now w s
        = { amharic := w.amharic
            pronunciation := w.pronunciation
            arabic := w.arabic
            usage := w.usage
            category := w.category
            level := w.level
            timestamp := now
            contributor := match s.current_username with
              | some name => if name = "" then "مجهول" else name
              | none => "مجهول"
            status := "pending" }
      ∧ (submitWordSuggestion env now w s).2.requests
        = s.requests
          ++ [{ url := "https://api.github.com/repos/amharic-dictionary/enhanced-dictionary/issues"
                method := some "POST"
                body := some
                  { title := "تعريف كلمة جديدة: " ++ interpolate w.amharic
                    body := issueBody env (contributionOf env now w s)
                    labels := ["contribution", "word-definition", "new-entry"] }
                headers :=
                  [("Accept", "application/vnd.github.v3+json"),
                    ("Content-Type", "application/json")]
                  ++ (match s.token with
                    | some token =>
                      if token = "" then [] else [("Authorization", "token " ++ token)]
                    | none => []) }]
      ∧ (persistedQueue (submitWordSuggestion env now w s).2).count (contributionOf env now w s)
        = (persistedQueue s).count (contributionOf env now w s) + 1 := by
  have hrecord : contributionOf env now w s
      = { amharic := w.amharic
          pronunciation := w.pronunciation
          arabic := w.arabic
          usage := w.usage
          category := w.category
          level := w.level
          timestamp := now
          contributor := match s.current_username with
            | some name => if name = "" then "مجهول" else name
            | none => "مجهول"
          status := "pending" } := by
    unfold contributionOf getCurrentUser
    rw [hd]
    cases hu : s.current_username with
    | none => rfl
    | some name =>
      by_cases hn : name = ""
      · subst hn
        rfl
      · simp [jsOr, truthy, stored, interpolate, hn]
  have hreq : requestOf issuesEndpoint (issueOptions env (contributionOf env now w s)) s
      = { url := "https://api.github.com/repos/amharic-dictionary/enhanced-dictionary/issues"
          method := some "POST"
          body := some
            { title := "تعريف كلمة جديدة: " ++ interpolate ((contributionOf env now w s)).amharic
              body := issueBody env (contributionOf env now w s)
              labels := ["contribution", "word-definition", "new-entry"] }
          headers :=
            [("Accept", "application/vnd.github.v3+json"), ("Content-Type", "application/json")]
            ++ (match s.token with
              | some token => if token = "" then [] else [("Authorization", "token " ++ token)]
              | none => []) } := by
    have hurl : apiBaseUrl ++ issuesEndpoint
        = "https://api.github.com/repos/amharic-dictionary/enhanced-dictionary/issues" := by
      decide
    unfold requestOf
    rw [hurl]
    simp only [issueOptions, spreadHeaders_nil, issueTitle, defaultHeaders]
    cases ht : s.token with
    | none => rfl
    | some token =>
      by_cases hn : token = ""
      · subst hn
        rfl
      · simp [stored, truthy, interpolate, hn]
  rw [submitWordSuggestion_connected_failure env now w s hc hd hf hfetch]
  refine ⟨rfl, ?_, hrecord, ?_, ?_⟩
  · simp [showNotification, persistedQueue]
  · simp only [showNotification]
    rw [hreq]
    rfl
  · simp [showNotification, persistedQueue]

theorem submitWordSuggestion_remote_failure_keeps_queued_witness :
    connectedState.isConnected = true ∧ offlineEnv.storageDenied = false
      ∧ offlineEnv.storageFull = false
      ∧ (submitWordSuggestion offlineEnv "2024-01-01T11:00:00.000Z" sampleWord
          connectedState).1 = .ok .null
      ∧ persistedQueue (submitWordSuggestion offlineEnv "2024-01-01T11:00:00.000Z"
          sampleWord connectedState).2
        = persistedQueue connectedState
          ++ [contributionOf offlineEnv "2024-01-01T11:00:00.000Z" sampleWord connectedState]
      ∧ contributionOf offlineEnv "2024-01-01T11:00:00.000Z" sampleWord connectedState
        = { amharic := .text "ሰላም"
            pronunciation := .text "selam"
            arabic := .text "سلام"
            usage := .undefined
            category := .text "greetings"
            level := .text "beginner"
            timestamp := "2024-01-01T11:00:00.000Z"
            contributor := "مجهول"
            status := "pending" }
      ∧ (submitWordSuggestion offlineEnv "2024-01-01T11:00:00.000Z" sampleWord
          connectedState).2.requests
        = connectedState.requests
          ++ [{ url := "https://api.github.com/repos/amharic-dictionary/enhanced-dictionary/issues"
                method := some "POST"
                body := some
                  { title := "تعريف كلمة جديدة: " ++ "ሰላም"
                    body := issueBody offlineEnv
                      (contributionOf offlineEnv "2024-01-01T11:00:00.000Z" sampleWord
                        connectedState)
                    labels := ["contribution", "word-definition", "new-entry"] }
                headers :=
                  [("Accept", "application/vnd.github.v3+json"),
                    ("Content-Type", "application/json"),
                    ("Authorization", "token ghp_token")] }]
      ∧ (persistedQueue (submitWordSuggestion offlineEnv "2024-01-01T11:00:00.000Z"
          sampleWord connectedState).2).count
            (contributionOf offlineEnv "2024-01-01T11:00:00.000Z" sampleWord connectedState)
        = (persistedQueue connectedState).count
            (contributionOf offlineEnv "2024-01-01T11:00:00.000Z" sampleWord connectedState) + 1 :=
  ⟨rfl, rfl, rfl,
    submitWordSuggestion_remote_failure_keeps_queued offlineEnv "2024-01-01T11:00:00.000Z"
      sampleWord connectedState rfl rfl rfl (Or.inl rfl)⟩

/-- C5. Connected session, storage working, the issue request answered with an
ok status and a JSON body, the five required fields present: the submission sends
exactly one request, a POST to the issues endpoint of the repository, whose title
contains the source word and whose body contains the pronunciation, the
translation, the category and the level. -/
theorem submitWordSuggestion_success_posts_once (env : Env) (now : String)
    (w : WordData) (s : State) (amharic pronunciation arabic category level : String)
    (status : Nat) (statusText : String) (v : JsValue)
    (ha : w.amharic = .text amharic) (hp : w.pronunciation = .text pronunciation)
    (hr : w.arabic = .text arabic) (hg : w.category = .text category)
    (hl : w.level = .text level)
    (hc : s.isConnected = true) (hd : env.storageDenied = false)
    (hf : env.storageFull = false)
    (hfetch : env.fetch s.requests.length
        (requestOf issuesEndpoint (issueOptions env (contributionOf env now w s)) s)
      = .response status statusText (some v))
    (hok : responseOk status = true) :
    ∃ payload : IssuePayload,
      (submitWordSuggestion env now w s).2.requests
          = s.requests
            ++ [{ url := "https://api.github.com/repos/amharic-dictionary/enhanced-dictionary/issues"
                  method := some "POST"
                  body := some payload
                  headers := defaultHeaders s }]
        ∧ containsText payload.title amharic
        ∧ containsText payload.body pronunciation
        ∧ containsText payload.body arabic
        ∧ containsText payload.body category
        ∧ containsText payload.body level := by
  rw [submitWordSuggestion_connected_success env now w s status statusText v hc hd hf hfetch hok]
  refine ⟨{ title := issueTitle (contributionOf env now w s)
            body := issueBody env (contributionOf env now w s)
            labels := ["contribution", "word-definition", "new-entry"] }, ?_, ?_, ?_, ?_, ?_, ?_⟩
  · have hurl : apiBaseUrl ++ issuesEndpoint
        = "https://api.github.com/repos/amharic-dictionary/enhanced-dictionary/issues" := by
      decide
    simp [showNotification, requestOf, issueOptions, spreadHeaders_nil, hurl]
  · simp only [issueTitle, contributionOf, ha, interpolate]
    exact containsText_append_self _ _
  · simp only [issueBody, contributionOf, hp, interpolate]
    iterate 13 apply containsText_append_left
    exact containsText_append_self _ _
  · simp only [issueBody, contributionOf, hr, interpolate]
    iterate 11 apply containsText_append_left
    exact containsText_append_self _ _
  · simp only [issueBody, contributionOf, hg, interpolate]
    iterate 7 apply containsText_append_left
    exact containsText_append_self _ _
  · simp only [issueBody, contributionOf, hl, interpolate]
    iterate 5 apply containsText_append_left
    exact containsText_append_self _ _

theorem submitWordSuggestion_success_posts_once_witness :
    sampleWord.amharic = .text "ሰላም" ∧ sampleWord.pronunciation = .text "selam"
      ∧ sampleWord.arabic = .text "سلام" ∧ sampleWord.category = .text "greetings"
      ∧ sampleWord.level = .text "beginner"
      ∧ connectedState.isConnected = true ∧ secondFailsEnv.storageDenied = false
      ∧ secondFailsEnv.storageFull = false ∧ responseOk 201 = true
      ∧ ∃ payload : IssuePayload,
        (submitWordSuggestion secondFailsEnv "2024-01-01T11:00:00.000Z" sampleWord
            connectedState).2.requests
          = connectedState.requests
            ++ [{ url := "https://api.github.com/repos/amharic-dictionary/enhanced-dictionary/issues"
                  method := some "POST"
                  body := some payload
                  headers := defaultHeaders connectedState }]
        ∧ containsText payload.title "ሰላም"
        ∧ containsText payload.body "selam"
        ∧ containsText payload.body "سلام"
        ∧ containsText payload.body "greetings"
        ∧ containsText payload.body "beginner" :=
  ⟨rfl, rfl, rfl, rfl, rfl, rfl, rfl, rfl, rfl,
    submitWordSuggestion_success_posts_once secondFailsEnv "2024-01-01T11:00:00.000Z"
      sampleWord connectedState "ሰላም" "selam" "سلام" "greetings" "beginner"
      201 "Created" (.object "issue") rfl rfl rfl rfl rfl rfl rfl rfl rfl rfl⟩

/-- C3. When one of the required fields amharic, pronunciation, arabic, category,
level of the submitted form is empty or missing, `handleContributionSubmit`
returns after a warning that names the first such field: the persisted queue is
untouched and no request is sent. -/
theorem handleContributionSubmit_rejects_missing_field (env : Env) (now1 now2 : String)
    (event : SubmitEvent) (s : State)
    (h : truthy (contributionDataOf env now1 event s).amharic = false
      ∨ truthy (contributionDataOf env now1 event s).pronunciation = false
      ∨ truthy (contributionDataOf env now1 event s).arabic = false
      ∨ truthy (contributionDataOf env now1 event s).category = false
      ∨ truthy (contributionDataOf env now1 event s).level = false) :
    (handleContributionSubmit env now1 now2 event s).1 = .ok ()
      ∧ (handleContributionSubmit env now1 now2 event s).2.offline_contributions
        = s.offline_contributions
      ∧ (persistedQueue (handleContributionSubmit env now1 now2 event s).2).length
        = (persistedQueue s).length
      ∧ (handleContributionSubmit env now1 now2 event s).2.requests = s.requests
      ∧ ∃ field ∈ requiredFields,
          (handleContributionSubmit env now1 now2 event s).2.effects
            = s.effects ++ [Effect.notification ("يرجى ملء حقل " ++ field) "warning"] := by
  unfold handleContributionSubmit
  dsimp only
  cases hfind : requiredFields.find?
      (fun field => !truthy ((contributionDataOf env now1 event s).get field)) with
  | none =>
    exfalso
    rw [List.find?_eq_none] at hfind
    have h1 := hfind "amharic" (by simp [requiredFields])
    have h2 := hfind "pronunciation" (by simp [requiredFields])
    have h3 := hfind "arabic" (by simp [requiredFields])
    have h4 := hfind "category" (by simp [requiredFields])
    have h5 := hfind "level" (by simp [requiredFields])
    simp [WordData.get] at h1 h2 h3 h4 h5
    simp [h1, h2, h3, h4, h5] at h
  | some field =>
    have hmem := List.mem_of_find?_eq_some hfind
    exact ⟨rfl, rfl, rfl, rfl, field, hmem, rfl⟩

theorem handleContributionSubmit_rejects_missing_field_witness :
    (truthy (contributionDataOf secondFailsEnv "2024-01-01T11:00:00.000Z"
          formWithoutPronunciation connectedState).amharic = false
      ∨ truthy (contributionDataOf secondFailsEnv "2024-01-01T11:00:00.000Z"
          formWithoutPronunciation connectedState).pronunciation = false
      ∨ truthy (contributionDataOf secondFailsEnv "2024-01-01T11:00:00.000Z"
          formWithoutPronunciation connectedState).arabic = false
      ∨ truthy (contributionDataOf secondFailsEnv "2024-01-01T11:00:00.000Z"
          formWithoutPronunciation connectedState).category = false
      ∨ truthy (contributionDataOf secondFailsEnv "2024-01-01T11:00:00.000Z"
          formWithoutPronunciation connectedState).level = false)
      ∧ (handleContributionSubmit secondFailsEnv "2024-01-01T11:00:00.000Z"
          "2024-01-01T11:00:00.001Z" formWithoutPronunciation connectedState).1 = .ok ()
      ∧ (handleContributionSubmit secondFailsEnv "2024-01-01T11:00:00.000Z"
          "2024-01-01T11:00:00.001Z" formWithoutPronunciation connectedState).2.offline_contributions
        = connectedState.offline_contributions
      ∧ (persistedQueue (handleContributionSubmit secondFailsEnv "2024-01-01T11:00:00.000Z"
          "2024-01-01T11:00:00.001Z" formWithoutPronunciation connectedState).2).length
        = (persistedQueue connectedState).length
      ∧ (handleContributionSubmit secondFailsEnv "2024-01-01T11:00:00.000Z"
          "2024-01-01T11:00:00.001Z" formWithoutPronunciation connectedState).2.requests
        = connectedState.requests
      ∧ ∃ field ∈ requiredFields,
          (handleContributionSubmit secondFailsEnv "2024-01-01T11:00:00.000Z"
            "2024-01-01T11:00:00.001Z" formWithoutPronunciation connectedState).2.effects
            = connectedState.effects
              ++ [Effect.notification ("يرجى ملء حقل " ++ field) "warning"] :=
  ⟨Or.inr (Or.inl (by decide)),
    handleContributionSubmit_rejects_missing_field secondFailsEnv "2024-01-01T11:00:00.000Z"
      "2024-01-01T11:00:00.001Z" formWithoutPronunciation connectedState
      (Or.inr (Or.inl (by decide)))⟩

/-- C9. When the storage throws on the enqueue (access denied, or no room for the
write) and the form is valid, `submitWordSuggestion` throws before any request
is sent, and `handleContributionSubmit` catches the error and shows a
notification of type `error`; no request is sent and the queue is untouched. -/
theorem handleContributionSubmit_storage_failure_surfaced (env : Env) (now1 now2 : String)
    (event : SubmitEvent) (s : State)
    (hs : env.storageDenied = true ∨ env.storageFull = true)
    (hv : ∀ field ∈ requiredFields,
      truthy ((contributionDataOf env now1 event s).get field) = true) :
    (∃ e, submitWordSuggestion env now2 (contributionDataOf env now1 event s)
            (showLoadingNotification "جاري الإرسال إلى GitHub..." s)
          = (.error e, showLoadingNotification "جاري الإرسال إلى GitHub..." s))
      ∧ (handleContributionSubmit env now1 now2 event s).1 = .ok ()
      ∧ (handleContributionSubmit env now1 now2 event s).2.requests = s.requests
      ∧ (handleContributionSubmit env now1 now2 event s).2.offline_contributions
        = s.offline_contributions
      ∧ (handleContributionSubmit env now1 now2 event s).2.effects
        = s.effects
          ++ [ Effect.loading "جاري الإرسال إلى GitHub...",
               Effect.notification "فشل في إرسال المساهمة" "error" ] := by
  have hfind : requiredFields.find?
      (fun field => !truthy ((contributionDataOf env now1 event s).get field)) = none := by
    rw [List.find?_eq_none]
    intro field hmem
    simp [hv field hmem]
  obtain ⟨e, he⟩ := submitWordSuggestion_storage_failure env now2
    (contributionDataOf env now1 event s)
    (showLoadingNotification "جاري الإرسال إلى GitHub..." s) hs
  refine ⟨⟨e, he⟩, ?_⟩
  unfold handleContributionSubmit
  dsimp only
  rw [hfind]
  dsimp only
  rw [he]
  simp [showNotification, showLoadingNotification]

theorem handleContributionSubmit_storage_failure_surfaced_witness :
    (storageFullEnv.storageDenied = true ∨ storageFullEnv.storageFull = true)
      ∧ (∀ field ∈ requiredFields,
          truthy ((contributionDataOf storageFullEnv "2024-01-01T11:00:00.000Z" filledForm
            connectedState).get field) = true)
      ∧ (∃ e, submitWordSuggestion storageFullEnv "2024-01-01T11:00:00.001Z"
            (contributionDataOf storageFullEnv "2024-01-01T11:00:00.000Z" filledForm
              connectedState)
            (showLoadingNotification "جاري الإرسال إلى GitHub..." connectedState)
          = (.error e, showLoadingNotification "جاري الإرسال إلى GitHub..." connectedState))
      ∧ (handleContributionSubmit storageFullEnv "2024-01-01T11:00:00.000Z"
          "2024-01-01T11:00:00.001Z" filledForm connectedState).1 = .ok ()
      ∧ (handleContributionSubmit storageFullEnv "2024-01-01T11:00:00.000Z"
          "2024-01-01T11:00:00.001Z" filledForm connectedState).2.requests
        = connectedState.requests
      ∧ (handleContributionSubmit storageFullEnv "2024-01-01T11:00:00.000Z"
          "2024-01-01T11:00:00.001Z" filledForm connectedState).2.offline_contributions
        = connectedState.offline_contributions
      ∧ (handleContributionSubmit storageFullEnv "2024-01-01T11:00:00.000Z"
          "2024-01-01T11:00:00.001Z" filledForm connectedState).2.effects
        = connectedState.effects
          ++ [ Effect.loading "جاري الإرسال إلى GitHub...",
               Effect.notification "فشل في إرسال المساهمة" "error" ] :=
  ⟨Or.inr rfl, by decide,
    handleContributionSubmit_storage_failure_surfaced storageFullEnv
      "2024-01-01T11:00:00.000Z" "2024-01-01T11:00:00.001Z" filledForm connectedState
      (Or.inr rfl) (by decide)⟩

/-! ## Session lemmas -/

theorem makeRequest_error (env : Env) (endpoint : String) (options : RequestOptions)
    (s : State) (outcome : FetchOutcome)
    (h : env.fetch s.requests.length (requestOf endpoint options s) = outcome)
    (hfail : outcome.succeeded = false) :
    ∃ e, makeRequest env endpoint options s
      = (.error e, { s with requests := s.requests ++ [requestOf endpoint options s] }) := by
  unfold makeRequest
  dsimp only
  rw [h]
  cases outcome with
  | rejected => exact ⟨_, rfl⟩
  | response status statusText json =>
    cases hok : responseOk status
    · exact ⟨.apiError status statusText, by simp [hok]⟩
    · cases json with
      | none => exact ⟨.decodeError, by simp [hok]⟩
      | some v => simp [FetchOutcome.succeeded, hok] at hfail

theorem makeRequest_ok (env : Env) (endpoint : String) (options : RequestOptions)
    (s : State) (outcome : FetchOutcome)
    (h : env.fetch s.requests.length (requestOf endpoint options s) = outcome)
    (hok : outcome.succeeded = true) :
    ∃ v, makeRequest env endpoint options s
      = (.ok v, { s with requests := s.requests ++ [requestOf endpoint options s] }) := by
  unfold makeRequest
  dsimp only
  rw [h]
  cases outcome with
  | rejected => simp [FetchOutcome.succeeded] at hok
  | response status statusText json =>
    cases json with
    | none => simp [FetchOutcome.succeeded] at hok
    | some v =>
      simp only [FetchOutcome.succeeded, Option.isSome_some, Bool.and_true] at hok
      exact ⟨v, by simp [hok]⟩

theorem getRepository_session (env : Env) (s : State) :
    (getRepository env s).2.isConnected = s.isConnected
      ∧ (getRepository env s).2.token = s.token := by
  have hs := makeRequest_state env ("/repos/" ++ owner ++ "/" ++ repo)
    { method := none, body := none, headers := [] } s
  unfold getRepository
  rcases hm : makeRequest env ("/repos/" ++ owner ++ "/" ++ repo)
    { method := none, body := none, headers := [] } s with ⟨r, s1⟩
  rw [hm] at hs
  dsimp only at hs
  subst hs
  cases r <;> exact ⟨rfl, rfl⟩

theorem getContributors_session (env : Env) (s : State) :
    (getContributors env s).2.isConnected = s.isConnected
      ∧ (getContributors env s).2.token = s.token := by
  have hs := makeRequest_state env ("/repos/" ++ owner ++ "/" ++ repo ++ "/contributors")
    { method := none, body := none, headers := [] } s
  unfold getContributors
  rcases hm : makeRequest env ("/repos/" ++ owner ++ "/" ++ repo ++ "/contributors")
    { method := none, body := none, headers := [] } s with ⟨r, s1⟩
  rw [hm] at hs
  dsimp only at hs
  subst hs
  cases r <;> exact ⟨rfl, rfl⟩

theorem getCommits_session (env : Env) (limit : Nat) (s : State) :
    (getCommits env limit s).2.isConnected = s.isConnected
      ∧ (getCommits env limit s).2.token = s.token := by
  have hs := makeRequest_state env
    ("/repos/" ++ owner ++ "/" ++ repo ++ "/commits?per_page=" ++ toString limit)
    { method := none, body := none, headers := [] } s
  unfold getCommits
  rcases hm : makeRequest env
    ("/repos/" ++ owner ++ "/" ++ repo ++ "/commits?per_page=" ++ toString limit)
    { method := none, body := none, headers := [] } s with ⟨r, s1⟩
  rw [hm] at hs
  dsimp only at hs
  subst hs
  cases r <;> exact ⟨rfl, rfl⟩

theorem getIssues_session (env : Env) (state : String) (s : State) :
    (getIssues env state s).2.isConnected = s.isConnected
      ∧ (getIssues env state s).2.token = s.token := by
  have hs := makeRequest_state env
    ("/repos/" ++ owner ++ "/" ++ repo ++ "/issues?state=" ++ state ++ "&per_page=20")
    { method := none, body := none, headers := [] } s
  unfold getIssues
  rcases hm : makeRequest env
    ("/repos/" ++ owner ++ "/" ++ repo ++ "/issues?state=" ++ state ++ "&per_page=20")
    { method := none, body := none, headers := [] } s with ⟨r, s1⟩
  rw [hm] at hs
  dsimp only at hs
  subst hs
  cases r <;> exact ⟨rfl, rfl⟩

theorem getRepositoryStats_session (env : Env) (s : State) :
    (getRepositoryStats env s).isConnected = s.isConnected
      ∧ (getRepositoryStats env s).token = s.token := by
  unfold getRepositoryStats
  dsimp only
  have h1 := getRepository_session env s
  have h2 := getContributors_session env (getRepository env s).2
  have h3 := getCommits_session env 1 (getContributors env (getRepository env s).2).2
  exact ⟨h3.1.trans (h2.1.trans h1.1), h3.2.trans (h2.2.trans h1.2)⟩

theorem loadRecentActivity_session (env : Env) (s : State) :
    (loadRecentActivity env s).isConnected = s.isConnected
      ∧ (loadRecentActivity env s).token = s.token := by
  unfold loadRecentActivity
  split
  · exact ⟨rfl, rfl⟩
  · have h1 := getCommits_session env 5 s
    have h2 := getIssues_session env "open" (getCommits env 5 s).2
    exact ⟨h2.1.trans h1.1, h2.2.trans h1.2⟩

theorem loadProjectData_session (env : Env) (s : State) :
    (loadProjectData env s).2.isConnected = s.isConnected
      ∧ (loadProjectData env s).2.token = s.token := by
  have h1 := getRepositoryStats_session env s
  have h2 := loadRecentActivity_session env (getRepositoryStats env s)
  unfold loadProjectData
  dsimp only
  split
  · exact h1
  · exact ⟨h2.1.trans h1.1, h2.2.trans h1.2⟩

theorem checkConnection_session (env : Env) (s : State) :
    (checkConnection env s).isConnected = truthy (stored s.token)
      ∧ (checkConnection env s).token = s.token := by
  unfold checkConnection updateStats
  dsimp only
  split
  · have h := getRepositoryStats_session env
      { s with isConnected := truthy (stored s.token) }
    exact h
  · exact ⟨rfl, rfl⟩

theorem createContributionIssue_disconnected (env : Env) (c : Contribution) (s : State)
    (h : s.isConnected = false) :
    createContributionIssue env c s
      = (.ok (.bool false), showNotification "يرجى الاتصال بـ GitHub أولاً" "warning" s) := by
  unfold createContributionIssue
  rw [if_pos (by simp [h])]

theorem syncLoop_disconnected (env : Env) (q : List Contribution) (s : State)
    (h : s.isConnected = false) :
    syncLoop env q s
      = { s with
          effects := s.effects
            ++ q.map (fun _ => Effect.notification "يرجى الاتصال بـ GitHub أولاً" "warning") } := by
  induction q generalizing s with
  | nil => simp [syncLoop]
  | cons c rest ih =>
    simp only [syncLoop, createContributionIssue_disconnected env c s h]
    rw [ih _ (by simpa [showNotification] using h)]
    simp [showNotification]

theorem syncLoop_session (env : Env) (q : List Contribution) (s : State) :
    (syncLoop env q s).isConnected = s.isConnected ∧ (syncLoop env q s).token = s.token := by
  by_cases hc : s.isConnected = true
  · have h := syncLoop_connected env q s hc
    exact ⟨h.2.1, h.2.2.1⟩
  · rw [syncLoop_disconnected env q s (by simpa using hc)]
    exact ⟨rfl, rfl⟩

theorem syncOfflineContributions_session (env : Env) (s : State) :
    (syncOfflineContributions env s).2.isConnected = s.isConnected
      ∧ (syncOfflineContributions env s).2.token = s.token := by
  have h := syncLoop_session env (s.offline_contributions.getD []) s
  unfold syncOfflineContributions getItemOfflineContributions removeItemOfflineContributions
  cases hd : env.storageDenied
  · simpa [showNotification] using h
  · simp

theorem authenticate_session (env : Env) (token : String) (s : State) :
    (authenticate env token s).2.token = some token
      ∧ (authenticate env token s).2.isConnected
        = (if !env.storageDenied && !env.storageFull
              && (env.fetch s.requests.length
                    (requestOf "/user" noOptions { s with token := some token })).succeeded
            then true else s.isConnected) := by
  unfold authenticate setItemGithubToken
  dsimp only
  cases hd : env.storageDenied
  · cases hf : env.storageFull
    · simp only [Bool.false_eq_true, if_false, Bool.not_false, Bool.true_and]
      cases hsucc : (env.fetch s.requests.length
          (requestOf "/user" noOptions { s with token := some token })).succeeded
      · obtain ⟨e, he⟩ := makeRequest_error env "/user" noOptions
          { s with token := some token, github_token := some token } _ rfl hsucc
        rw [show ({ method := none, body := none, headers := [] } : RequestOptions) = noOptions
          from rfl, he]
        exact ⟨rfl, rfl⟩
      · obtain ⟨v, hv⟩ := makeRequest_ok env "/user" noOptions
          { s with token := some token, github_token := some token } _ rfl hsucc
        rw [show ({ method := none, body := none, headers := [] } : RequestOptions) = noOptions
          from rfl, hv]
        dsimp only
        have hsess := loadProjectData_session env
          (showNotification "تم الاتصال بـ GitHub بنجاح" "success"
            { s with
              token := some token
              github_token := some token
              requests := s.requests
                ++ [requestOf "/user" noOptions
                      { s with token := some token, github_token := some token }]
              isConnected := true })
        rcases hl : loadProjectData env
          (showNotification "تم الاتصال بـ GitHub بنجاح" "success"
            { s with
              token := some token
              github_token := some token
              requests := s.requests
                ++ [requestOf "/user" noOptions
                      { s with token := some token, github_token := some token }]
              isConnected := true }) with ⟨r, s6⟩
        rw [hl] at hsess
        dsimp only [showNotification] at hsess
        cases r
        · exact ⟨hsess.2, hsess.1⟩
        · exact ⟨hsess.2, hsess.1⟩
    · simp [showNotification]
  · simp [showNotification]

/-! ## The claims, continued -/

/-- C11, the claim as stated fails. A token is found in the storage and the
network is unreachable: the constructor leaves the flag set although no request
carrying the credential ever succeeded. Likewise a failed `authenticate`
followed by the `online` event leaves the flag set on a credential whose only
validation failed. -/
theorem constructor_connects_unvalidated_credential :
    (construct offlineEnv (some "ghp_token") none none).map
        (fun s0 => (s0.isConnected, credentialPresent s0, credentialValidated offlineEnv s0))
      = .ok (true, true, false)
      ∧ (authenticate offlineEnv "bad" anonymousState).1 = .ok false
      ∧ (onOnline offlineEnv (authenticate offlineEnv "bad" anonymousState).2).isConnected = true
      ∧ credentialValidated offlineEnv
          (onOnline offlineEnv (authenticate offlineEnv "bad" anonymousState).2) = false :=
  ⟨rfl, rfl, by decide, by decide⟩

/-- C11, as the code has it. The flag follows the presence of the credential, not
its validation: `checkConnection` sets it to `!!this.token`, so it is true
exactly when a credential is present after `checkConnection`, after the
constructor, and after the `online` listener when a credential is present (the
listener does nothing without one); `authenticate(token)` sets it to true when
its request `GET /user` succeeds and leaves it as it was otherwise. -/
theorem isConnected_follows_credential_presence (env : Env) (s : State) (token : String)
    (github_token current_username : Option String)
    (offline_contributions : Option (List Contribution)) :
    (checkConnection env s).isConnected = credentialPresent (checkConnection env s)
      ∧ (∀ s0, construct env github_token current_username offline_contributions = .ok s0 →
          s0.isConnected = credentialPresent s0)
      ∧ (onOnline env s).isConnected = (if credentialPresent s then true else s.isConnected)
      ∧ (onOnline env s).token = s.token
      ∧ (authenticate env token s).2.token = some token
      ∧ (authenticate env token s).2.isConnected
        = (if !env.storageDenied && !env.storageFull
              && (env.fetch s.requests.length
                    (requestOf "/user" noOptions { s with token := some token })).succeeded
            then true else s.isConnected) := by
  refine ⟨?_, ?_, ?_, ?_, (authenticate_session env token s).1,
    (authenticate_session env token s).2⟩
  · have h := checkConnection_session env s
    simp [credentialPresent, h.1, h.2]
  · intro s0 h0
    unfold construct at h0
    cases hd : env.storageDenied
    · simp only [hd, Bool.false_eq_true, if_false, Except.ok.injEq] at h0
      subst h0
      unfold init
      have h1 := checkConnection_session env
        { token := if truthy (stored github_token) then github_token else none
          isConnected := false
          contributors := .object "[]"
          commits := .object "[]"
          issues := .object "[]"
          branches := .object "[]"
          github_token := github_token
          current_username := current_username
          offline_contributions := offline_contributions
          requests := []
          effects := [] }
      have h2 := loadProjectData_session env (checkConnection env
        { token := if truthy (stored github_token) then github_token else none
          isConnected := false
          contributors := .object "[]"
          commits := .object "[]"
          issues := .object "[]"
          branches := .object "[]"
          github_token := github_token
          current_username := current_username
          offline_contributions := offline_contributions
          requests := []
          effects := [] })
      simp only [credentialPresent]
      rw [h2.1, h2.2, h1.1, h1.2]
    · simp [hd] at h0
  · unfold onOnline credentialPresent
    have h1 := checkConnection_session env s
    have h2 := syncOfflineContributions_session env (checkConnection env s)
    split
    · rename_i ht
      rw [h2.1, h1.1, ht]
    · rfl
  · unfold onOnline
    have h1 := checkConnection_session env s
    have h2 := syncOfflineContributions_session env (checkConnection env s)
    split
    · rw [h2.2, h1.2]
    · rfl

/-- C18, the claim as stated fails. The remote answers 404 to every request:
`makeRequest` throws the error carrying 404 and its status text, but each of the
five operations returns a normal value, `null` or `[]`. -/
theorem read_operations_return_normally_on_404 :
    (makeRequest notFoundEnv ("/repos/" ++ owner ++ "/" ++ repo) noOptions connectedState).1
        = .error (.apiError 404 "Not Found")
      ∧ (getRepository notFoundEnv connectedState).1 = .ok .null
      ∧ (getContributors notFoundEnv connectedState).1 = .ok (.object "[]")
      ∧ (getCommits notFoundEnv 10 connectedState).1 = .ok (.object "[]")
      ∧ (getIssues notFoundEnv "open" connectedState).1 = .ok (.object "[]")
      ∧ (getBranches notFoundEnv connectedState).1 = .ok (.object "[]") :=
  ⟨rfl, rfl, rfl, rfl, rfl, rfl⟩

/-- C18, as the code has it. When the remote answers a request with a status
outside 200-299, or the network is unreachable, `makeRequest` throws the error
that carries the status and the status text (a network error when unreachable);
each of the five operations catches it and returns normally: `getRepository`
returns `null`, the other four return `[]` and leave their field as it was. -/
theorem read_operations_catch_request_errors (env : Env) (s : State)
    (outcome : FetchOutcome) (limit : Nat) (state : String)
    (h : ∀ request, env.fetch s.requests.length request = outcome)
    (hfail : outcome = .rejected
      ∨ ∃ status statusText json,
          outcome = .response status statusText json ∧ responseOk status = false) :
    (∀ endpoint options,
        (makeRequest env endpoint options s).1
          = .error (match outcome with
              | .rejected => .networkError
              | .response status statusText _ => .apiError status statusText))
      ∧ (getRepository env s).1 = .ok .null
      ∧ (getContributors env s).1 = .ok (.object "[]")
      ∧ (getContributors env s).2.contributors = s.contributors
      ∧ (getCommits env limit s).1 = .ok (.object "[]")
      ∧ (getCommits env limit s).2.commits = s.commits
      ∧ (getIssues env state s).1 = .ok (.object "[]")
      ∧ (getIssues env state s).2.issues = s.issues
      ∧ (getBranches env s).1 = .ok (.object "[]")
      ∧ (getBranches env s).2.branches = s.branches := by
  rcases hfail with hr | ⟨status, statusText, json, hr, hok⟩
  · subst hr
    simp [makeRequest, getRepository, getContributors, getCommits, getIssues, getBranches, h]
  · subst hr
    simp [makeRequest, getRepository, getContributors, getCommits, getIssues, getBranches, h,
      hok]

theorem read_operations_catch_request_errors_witness :
    (∀ request, notFoundEnv.fetch connectedState.requests.length request
        = .response 404 "Not Found" (some (.object "message")))
      ∧ responseOk 404 = false
      ∧ (∀ endpoint options,
          (makeRequest notFoundEnv endpoint options connectedState).1
            = .error (.apiError 404 "Not Found"))
      ∧ (getRepository notFoundEnv connectedState).1 = .ok .null
      ∧ (getContributors notFoundEnv connectedState).1 = .ok (.object "[]")
      ∧ (getContributors notFoundEnv connectedState).2.contributors
        = connectedState.contributors
      ∧ (getCommits notFoundEnv 10 connectedState).1 = .ok (.object "[]")
      ∧ (getCommits notFoundEnv 10 connectedState).2.commits = connectedState.commits
      ∧ (getIssues notFoundEnv "open" connectedState).1 = .ok (.object "[]")
      ∧ (getIssues notFoundEnv "open" connectedState).2.issues = connectedState.issues
      ∧ (getBranches notFoundEnv connectedState).1 = .ok (.object "[]")
      ∧ (getBranches notFoundEnv connectedState).2.branches = connectedState.branches :=
  ⟨fun _ => rfl, rfl,
    read_operations_catch_request_errors notFoundEnv connectedState
      (.response 404 "Not Found" (some (.object "message"))) 10 "open" (fun _ => rfl)
      (Or.inr ⟨404, "Not Found", some (.object "message"), rfl, rfl⟩)⟩

/-- C19. A drain by a session that is not connected, with the storage readable:
every item gets the warning of `createContributionIssue` and no request is sent,
and then the key is removed, so the persisted queue is empty afterwards. -/
theorem syncOfflineContributions_disconnected_drops_queue (env : Env) (s : State)
    (hc : s.isConnected = false) (hd : env.storageDenied = false) :
    (syncOfflineContributions env s).1 = .ok ()
      ∧ (∀ c ∈ persistedQueue s, (createContributionIssue env c s).1 = .ok (.bool false))
      ∧ (syncOfflineContributions env s).2.requests = s.requests
      ∧ (syncOfflineContributions env s).2.effects
        = s.effects
          ++ (persistedQueue s).map
              (fun _ => Effect.notification "يرجى الاتصال بـ GitHub أولاً" "warning")
          ++ [Effect.notification "تم مزامنة جميع المساهمات المحفوظة" "success"]
      ∧ (syncOfflineContributions env s).2.offline_contributions = none
      ∧ persistedQueue (syncOfflineContributions env s).2 = [] := by
  have hl := syncLoop_disconnected env (s.offline_contributions.getD []) s hc
  refine ⟨?_, ?_, ?_, ?_, ?_, ?_⟩
  · simp [syncOfflineContributions, getItemOfflineContributions,
      removeItemOfflineContributions, hd]
  · intro c _
    rw [createContributionIssue_disconnected env c s hc]
  all_goals
    simp [syncOfflineContributions, getItemOfflineContributions,
      removeItemOfflineContributions, hd, hl, showNotification, persistedQueue]

theorem syncOfflineContributions_disconnected_drops_queue_witness :
    anonymousState.isConnected = false ∧ secondFailsEnv.storageDenied = false
      ∧ (syncOfflineContributions secondFailsEnv anonymousState).1 = .ok ()
      ∧ (∀ c ∈ persistedQueue anonymousState,
          (createContributionIssue secondFailsEnv c anonymousState).1 = .ok (.bool false))
      ∧ (syncOfflineContributions secondFailsEnv anonymousState).2.requests
        = anonymousState.requests
      ∧ (syncOfflineContributions secondFailsEnv anonymousState).2.effects
        = anonymousState.effects
          ++ (persistedQueue anonymousState).map
              (fun _ => Effect.notification "يرجى الاتصال بـ GitHub أولاً" "warning")
          ++ [Effect.notification "تم مزامنة جميع المساهمات المحفوظة" "success"]
      ∧ (syncOfflineContributions secondFailsEnv anonymousState).2.offline_contributions = none
      ∧ persistedQueue (syncOfflineContributions secondFailsEnv anonymousState).2 = [] :=
  ⟨rfl, rfl,
    syncOfflineContributions_disconnected_drops_queue secondFailsEnv anonymousState rfl rfl⟩

end GitHubIntegration

namespace ServiceWorker

/-! ## Cache lemmas -/

theorem lookup_put (url : String) (response : Response) (entries : List (String × Response)) :
    (entries.filter (fun entry => entry.1 ≠ url) ++ [(url, response)]).lookup url
      = some response := by
  induction entries with
  | nil => simp [List.lookup]
  | cons e rest ih =>
    by_cases h : e.1 = url
    · simpa [List.filter_cons, h] using ih
    · have h2 : (url == e.1) = false := by
        simp only [beq_eq_false_iff_ne, ne_eq]
        exact fun hh => h hh.symm
      simp only [List.filter_cons, ne_eq, h, not_false_eq_true, decide_True, if_true,
        List.cons_append]
      obtain ⟨k, v⟩ := e
      simp only [List.lookup, h2]
      exact ih

theorem cachesMatch_none_iff (caches : CacheStorage) (request : Request) :
    cachesMatch caches request = none ↔ ∀ cache ∈ caches, cacheMatch cache request = none := by
  unfold cachesMatch
  exact List.findSome?_eq_none_iff

theorem cachesGet_match_none (cacheName : String) (caches : CacheStorage) (request : Request)
    (hmiss : cachesMatch caches request = none) :
    (cachesGet cacheName caches).bind (fun cache => cacheMatch cache request) = none := by
  rw [cachesMatch_none_iff] at hmiss
  unfold cachesGet
  cases hf : caches.find? (fun cache => decide (cache.name = cacheName)) with
  | none => rfl
  | some cache => exact hmiss cache (List.mem_of_find?_eq_some hf)

theorem cachesOpen_miss (cacheName : String) (caches : CacheStorage) (request : Request)
    (hmiss : cachesMatch caches request = none) :
    cachesMatch (cachesOpen cacheName caches) request = none := by
  rw [cachesMatch_none_iff] at hmiss ⊢
  unfold cachesOpen
  split
  · exact hmiss
  · intro cache hmem
    rcases List.mem_append.mp hmem with h | h
    · exact hmiss cache h
    · simp only [List.mem_singleton] at h
      subst h
      unfold cacheMatch
      split <;> rfl

theorem cachesOpen_exists (cacheName : String) (caches : CacheStorage) :
    ∃ cache ∈ cachesOpen cacheName caches, cache.name = cacheName := by
  unfold cachesOpen
  split
  · rename_i h
    obtain ⟨cache, hmem, hname⟩ := List.any_eq_true.mp h
    exact ⟨cache, hmem, by simpa using hname⟩
  · exact ⟨{ name := cacheName, entries := [] }, by simp, rfl⟩

theorem cachePut_stores (cacheName : String) (request : Request) (response : Response)
    (caches : CacheStorage) (hget : request.method = "GET")
    (hmiss : cachesMatch caches request = none)
    (hex : ∃ cache ∈ caches, cache.name = cacheName) :
    cachesMatch (cachePut cacheName request response caches) request = some response
      ∧ (cachesGet cacheName (cachePut cacheName request response caches)).bind
          (fun cache => cacheMatch cache request) = some response := by
  induction caches with
  | nil =>
    obtain ⟨cache, hmem, _⟩ := hex
    simp at hmem
  | cons c rest ih =>
    rw [cachesMatch_none_iff] at hmiss
    by_cases hname : c.name = cacheName
    · subst hname
      have hm : cacheMatch
          { c with entries := c.entries.filter (fun entry => entry.1 ≠ request.url)
              ++ [(request.url, response)] } request = some response := by
        simp only [cacheMatch, hget, ne_eq, not_true_eq_false, if_false]
        exact lookup_put request.url response c.entries
      constructor
      · simp only [cachePut, List.map_cons, if_true, cachesMatch, List.findSome?_cons]
        rw [hm]
      · simp only [cachePut, List.map_cons, if_true, cachesGet, List.find?_cons,
          decide_True, Option.some_bind]
        exact hm
    · have hc : cacheMatch c request = none := hmiss c (by simp)
      have hrest : cachesMatch rest request = none := by
        rw [cachesMatch_none_iff]
        intro cache hmem
        exact hmiss cache (List.mem_cons_of_mem _ hmem)
      have hex2 : ∃ cache ∈ rest, cache.name = cacheName := by
        obtain ⟨cache, hmem, hn⟩ := hex
        rcases List.mem_cons.mp hmem with h | h
        · subst h
          exact absurd hn hname
        · exact ⟨cache, h, hn⟩
      obtain ⟨ih1, ih2⟩ := ih hrest hex2
      constructor
      · simp only [cachePut, List.map_cons, hname, if_false, cachesMatch, List.findSome?_cons,
          hc]
        exact ih1
      · simp only [cachePut, List.map_cons, hname, if_false, cachesGet, List.find?_cons,
          decide_False]
        exact ih2

theorem cachesMatch_first (caches before after : CacheStorage) (cache : Cache)
    (request : Request) (response : Response)
    (hsplit : caches = before ++ cache :: after)
    (hbefore : cachesMatch before request = none)
    (hentry : cacheMatch cache request = some response) :
    cachesMatch caches request = some response := by
  subst hsplit
  unfold cachesMatch at hbefore ⊢
  rw [List.findSome?_append, hbefore]
  simp [List.findSome?_cons, hentry]

theorem cachesGet_first (caches before after : CacheStorage) (cache : Cache)
    (hsplit : caches = before ++ cache :: after)
    (hname : cache.name = CACHE_NAME)
    (hbefore : ∀ c ∈ before, c.name ≠ CACHE_NAME) :
    cachesGet CACHE_NAME caches = some cache := by
  subst hsplit
  unfold cachesGet
  rw [List.find?_append]
  have hnone : List.find? (fun c => decide (c.name = CACHE_NAME)) before = none := by
    rw [List.find?_eq_none]
    intro c hc
    simpa using hbefore c hc
  rw [hnone]
  simp [List.find?_cons, hname]

theorem activate_fold (names : List String) (caches : CacheStorage) :
    names.foldl
        (fun caches cacheName =>
          if cacheName ≠ CACHE_NAME then cachesDelete cacheName caches else caches)
        caches
      = caches.filter (fun cache => decide (cache.name = CACHE_NAME ∨ cache.name ∉ names)) := by
  induction names generalizing caches with
  | nil => simp
  | cons n rest ih =>
    simp only [List.foldl_cons]
    rw [ih]
    by_cases hn : n = CACHE_NAME
    · simp only [ne_eq, hn, not_true_eq_false, if_false, List.mem_cons]
      apply List.filter_congr
      intro cache _
      by_cases hc : cache.name = CACHE_NAME <;> simp [hc]
    · simp only [ne_eq, hn, not_false_eq_true, if_true, cachesDelete, List.filter_filter,
        List.mem_cons]
      apply List.filter_congr
      intro cache _
      by_cases hc : cache.name = CACHE_NAME
      · simp [hc, Ne.symm hn]
      · by_cases hcn : cache.name = n <;> simp [hc, hcn, hn]

theorem fetchListener_hit (env : Env) (request : Request) (s : State) (response : Response)
    (hget : request.method = "GET")
    (hext : startsWith request.url "chrome-extension://" = false)
    (hm : cachesMatch s.caches request = some response) :
    fetchListener env request s = (some (.fulfilled (some response)), s) := by
  unfold fetchListener
  simp [hget, hext, hm]

theorem dispatchFetch_hit (env : Env) (request : Request) (s : State) (response : Response)
    (hget : request.method = "GET")
    (hext : startsWith request.url "chrome-extension://" = false)
    (hm : cachesMatch s.caches request = some response) :
    dispatchFetch env request s = (some (.fulfilled (some response)), s) := by
  unfold dispatchFetch
  rw [fetchListener_hit env request s response hget hext hm]

theorem fetchListener_miss (env : Env) (request : Request) (s : State)
    (hget : request.method = "GET")
    (hext : startsWith request.url "chrome-extension://" = false)
    (hmiss : cachesMatch s.caches request = none) :
    fetchListener env request s
      = match env.network s.requests.length request with
        | some response =>
          if response.status ≠ 200 ∨ response.type ≠ "basic" then
            (some (.fulfilled (some response)), { s with requests := s.requests ++ [request] })
          else
            (some (.fulfilled (some response)),
              { s with
                requests := s.requests ++ [request]
                caches := cachePut CACHE_NAME request response (cachesOpen CACHE_NAME s.caches) })
        | none =>
          if request.destination = "document" then
            (some (.fulfilled (cachesMatch s.caches (requestOfUrl "/enhanced-dictionary.html"))),
              { s with requests := s.requests ++ [request] })
          else
            (some (.fulfilled (some offlineResponse)),
              { s with requests := s.requests ++ [request] }) := by
  unfold fetchListener fetch
  simp only [hget, hext, hmiss, ne_eq, not_true_eq_false, if_false, Bool.false_eq_true]
  cases env.network s.requests.length request <;> rfl

theorem dispatchFetch_of_answer (env : Env) (request : Request) (s : State)
    (answer : Settled (Option Response)) (s1 : State)
    (h : fetchListener env request s = (some answer, s1)) :
    dispatchFetch env request s = (some answer, s1) := by
  unfold dispatchFetch
  rw [h]

/-! ## The claims -/

/-- C12, the claim as stated fails. The script request has an entry in the
current cache, but a cache of another name, created before it, holds an entry
for the same request: `caches.match` takes the caches in the order of their
creation, so the listener answers with the other cache's response, not with the
current cache's. No request goes to the network. -/
theorem other_cache_shadows_current_entry :
    scriptRequest.method = "GET"
      ∧ startsWith scriptRequest.url "chrome-extension://" = false
      ∧ (cachesGet CACHE_NAME otherFirstState.caches).bind
          (fun cache => cacheMatch cache scriptRequest) = some scriptResponse
      ∧ (dispatchFetch unreachableEnv scriptRequest otherFirstState).1
        = some (.fulfilled (some staleResponse))
      ∧ (dispatchFetch unreachableEnv scriptRequest otherFirstState).1
        ≠ some (.fulfilled (some scriptResponse))
      ∧ (dispatchFetch unreachableEnv scriptRequest otherFirstState).2.requests = [] :=
  ⟨rfl, by decide, by decide, by decide, by decide, by decide⟩

/-- C12, as the code has it. A GET request, not of the scheme
`chrome-extension://`, for which a cache holds an entry while no cache created
before that cache holds one: the first listener answers with that entry, the
second listener is not run, no request goes to the network and the state is
unchanged, whatever the network would answer. When that cache is the current one
(no cache created before it bears its name), the answer is the entry of the
current cache. -/
theorem fetch_serves_first_matching_cache (env : Env) (request : Request) (s : State)
    (before after : CacheStorage) (cache : Cache) (response : Response)
    (hget : request.method = "GET")
    (hext : startsWith request.url "chrome-extension://" = false)
    (hsplit : s.caches = before ++ cache :: after)
    (hbefore : cachesMatch before request = none)
    (hentry : cacheMatch cache request = some response) :
    fetchListener env request s = (some (.fulfilled (some response)), s)
      ∧ dispatchFetch env request s = (some (.fulfilled (some response)), s)
      ∧ (dispatchFetch env request s).2.requests = s.requests
      ∧ (cache.name = CACHE_NAME → (∀ c ∈ before, c.name ≠ CACHE_NAME) →
          (cachesGet CACHE_NAME s.caches).bind (fun c => cacheMatch c request)
            = some response) := by
  have hm := cachesMatch_first s.caches before after cache request response hsplit hbefore
    hentry
  refine ⟨fetchListener_hit env request s response hget hext hm,
    dispatchFetch_hit env request s response hget hext hm, ?_, ?_⟩
  · rw [dispatchFetch_hit env request s response hget hext hm]
  · intro hname hnames
    rw [cachesGet_first s.caches before after cache hsplit hname hnames]
    exact hentry

theorem fetch_serves_first_matching_cache_witness :
    scriptRequest.method = "GET"
      ∧ startsWith scriptRequest.url "chrome-extension://" = false
      ∧ currentFirstState.caches = [] ++ currentCache :: [otherCache]
      ∧ cachesMatch [] scriptRequest = none
      ∧ cacheMatch currentCache scriptRequest = some scriptResponse
      ∧ fetchListener unreachableEnv scriptRequest currentFirstState
        = (some (.fulfilled (some scriptResponse)), currentFirstState)
      ∧ dispatchFetch unreachableEnv scriptRequest currentFirstState
        = (some (.fulfilled (some scriptResponse)), currentFirstState)
      ∧ (dispatchFetch unreachableEnv scriptRequest currentFirstState).2.requests
        = currentFirstState.requests
      ∧ (currentCache.name = CACHE_NAME → (∀ c ∈ ([] : CacheStorage), c.name ≠ CACHE_NAME) →
          (cachesGet CACHE_NAME currentFirstState.caches).bind
              (fun c => cacheMatch c scriptRequest)
            = some scriptResponse) :=
  ⟨rfl, by decide, rfl, rfl, by decide,
    fetch_serves_first_matching_cache unreachableEnv scriptRequest currentFirstState []
      [otherCache] currentCache scriptResponse rfl (by decide) rfl rfl (by decide)⟩

/-- C13. A GET request, not of the scheme `chrome-extension://`, with no entry in
any cache, whose network fetch resolves: the answer is the network response
after exactly one request; the current cache holds the response under that
request afterwards if and only if the status is 200 and the type is `basic`
(otherwise the caches are unchanged); and when it is stored, the same request
dispatched again is answered with it, with no further request, whatever the
network would answer. -/
theorem fetch_miss_then_store (env : Env) (request : Request) (s : State)
    (response : Response)
    (hget : request.method = "GET")
    (hext : startsWith request.url "chrome-extension://" = false)
    (hmiss : cachesMatch s.caches request = none)
    (hnet : env.network s.requests.length request = some response) :
    (dispatchFetch env request s).1 = some (.fulfilled (some response))
      ∧ (dispatchFetch env request s).2.requests = s.requests ++ [request]
      ∧ ((cachesGet CACHE_NAME (dispatchFetch env request s).2.caches).bind
            (fun cache => cacheMatch cache request) = some response
          ↔ (response.status = 200 ∧ response.type = "basic"))
      ∧ (¬ (response.status = 200 ∧ response.type = "basic") →
          (dispatchFetch env request s).2.caches = s.caches)
      ∧ (response.status = 200 ∧ response.type = "basic" →
          ∀ env2 : Env,
            dispatchFetch env2 request (dispatchFetch env request s).2
              = (some (.fulfilled (some response)), (dispatchFetch env request s).2)) := by
  have hl := fetchListener_miss env request s hget hext hmiss
  rw [hnet] at hl
  dsimp only at hl
  have hput := cachePut_stores CACHE_NAME request response (cachesOpen CACHE_NAME s.caches)
    hget (cachesOpen_miss CACHE_NAME s.caches request hmiss)
    (cachesOpen_exists CACHE_NAME s.caches)
  by_cases hc : response.status = 200 ∧ response.type = "basic"
  · have hcond : ¬ (response.status ≠ 200 ∨ response.type ≠ "basic") := by
      rw [not_or]
      exact ⟨not_not.mpr hc.1, not_not.mpr hc.2⟩
    rw [if_neg hcond] at hl
    have hd := dispatchFetch_of_answer env request s _ _ hl
    rw [hd]
    refine ⟨rfl, rfl, ⟨fun _ => hc, fun _ => hput.2⟩, fun h => absurd hc h, ?_⟩
    intro _ env2
    exact dispatchFetch_hit env2 request _ response hget hext hput.1
  · have hcond : response.status ≠ 200 ∨ response.type ≠ "basic" := by
      by_cases h1 : response.status = 200
      · exact Or.inr (fun h2 => hc ⟨h1, h2⟩)
      · exact Or.inl h1
    rw [if_pos hcond] at hl
    have hd := dispatchFetch_of_answer env request s _ _ hl
    rw [hd]
    refine ⟨rfl, rfl, ⟨fun h => ?_, fun h => absurd h hc⟩, fun _ => rfl, fun h => absurd h hc⟩
    have hnone := cachesGet_match_none CACHE_NAME s.caches request hmiss
    dsimp only at h
    rw [hnone] at h
    exact absurd h (by simp)

theorem fetch_miss_then_store_witness :
    scriptRequest.method = "GET"
      ∧ startsWith scriptRequest.url "chrome-extension://" = false
      ∧ cachesMatch activeState.caches scriptRequest = none
      ∧ onlineEnv.network activeState.requests.length scriptRequest = some scriptResponse
      ∧ (dispatchFetch onlineEnv scriptRequest activeState).1
        = some (.fulfilled (some scriptResponse))
      ∧ (dispatchFetch onlineEnv scriptRequest activeState).2.requests
        = activeState.requests ++ [scriptRequest]
      ∧ ((cachesGet CACHE_NAME (dispatchFetch onlineEnv scriptRequest activeState).2.caches).bind
            (fun cache => cacheMatch cache scriptRequest) = some scriptResponse
          ↔ (scriptResponse.status = 200 ∧ scriptResponse.type = "basic"))
      ∧ (¬ (scriptResponse.status = 200 ∧ scriptResponse.type = "basic") →
          (dispatchFetch onlineEnv scriptRequest activeState).2.caches = activeState.caches)
      ∧ (scriptResponse.status = 200 ∧ scriptResponse.type = "basic" →
          ∀ env2 : Env,
            dispatchFetch env2 scriptRequest (dispatchFetch onlineEnv scriptRequest activeState).2
              = (some (.fulfilled (some scriptResponse)),
                  (dispatchFetch onlineEnv scriptRequest activeState).2)) :=
  ⟨rfl, by decide, by decide, rfl,
    fetch_miss_then_store onlineEnv scriptRequest activeState scriptResponse rfl (by decide)
      (by decide) rfl⟩

/-- C14. Whatever caches exist, `activate` keeps exactly the caches named
`CACHE_NAME`, each as it was: the names afterwards are the old names that equal
`CACHE_NAME`, every cache of another name is gone, and no cache named
`CACHE_NAME` is deleted. -/
theorem activate_keeps_only_current_generation (s : State) :
    (activate s).1 = .fulfilled ()
      ∧ (activate s).2.caches = s.caches.filter (fun cache => cache.name = CACHE_NAME)
      ∧ (∀ name, name ∈ cachesKeys (activate s).2.caches
          ↔ name ∈ cachesKeys s.caches ∧ name = CACHE_NAME)
      ∧ (∀ cache ∈ s.caches, cache.name ≠ CACHE_NAME →
          cache.name ∉ cachesKeys (activate s).2.caches)
      ∧ (∀ cache ∈ s.caches, cache.name = CACHE_NAME → cache ∈ (activate s).2.caches)
      ∧ (activate s).2.clientsClaimed = true := by
  have hc : (activate s).2.caches = s.caches.filter (fun cache => cache.name = CACHE_NAME) := by
    unfold activate
    dsimp only
    rw [activate_fold]
    apply List.filter_congr
    intro cache hmem
    have hk : cache.name ∈ cachesKeys s.caches := List.mem_map.mpr ⟨cache, hmem, rfl⟩
    simp [hk]
  have hkeys : ∀ name, name ∈ cachesKeys (activate s).2.caches
      ↔ name ∈ cachesKeys s.caches ∧ name = CACHE_NAME := by
    intro name
    rw [hc]
    simp only [cachesKeys, List.mem_map, List.mem_filter, decide_eq_true_eq]
    constructor
    · rintro ⟨cache, ⟨hmem, hname⟩, rfl⟩
      exact ⟨⟨cache, hmem, rfl⟩, hname⟩
    · rintro ⟨⟨cache, hmem, rfl⟩, hname⟩
      exact ⟨cache, ⟨hmem, hname⟩, rfl⟩
  refine ⟨rfl, hc, hkeys, ?_, ?_, rfl⟩
  · intro cache _ hne hin
    exact hne ((hkeys cache.name).mp hin).2
  · intro cache hmem hname
    rw [hc]
    exact List.mem_filter.mpr ⟨hmem, by simpa using hname⟩

/-- C15, the code at the failing input. The fetch of `/manifest.json` rejects
during the installation: `cache.addAll` rejects and nothing is stored, the
`catch` of the listener logs the failure, and the promise handed to
`event.waitUntil` is fulfilled, not rejected; `skipWaiting` is not called and the
current cache is left empty. -/
theorem install_fulfils_when_manifest_fetch_fails :
    manifestMissingEnv.network 1 (requestOfUrl "/manifest.json") = none
      ∧ (cacheAddAll manifestMissingEnv CACHE_NAME urlsToCache
          { freshState with caches := cachesOpen CACHE_NAME freshState.caches }).1 = .rejected
      ∧ (install manifestMissingEnv freshState).1 = .fulfilled ()
      ∧ (install manifestMissingEnv freshState).1 ≠ .rejected
      ∧ (install manifestMissingEnv freshState).2.skipWaiting = false
      ∧ cachesGet CACHE_NAME (install manifestMissingEnv freshState).2.caches
        = some { name := CACHE_NAME, entries := [] } :=
  ⟨by decide, by decide, by decide, by decide, by decide, by decide⟩

/-- C16. A GET request, not of the scheme `chrome-extension://`, with no entry in
any cache, whose network fetch rejects: a navigation (destination `document`) is
answered with the cached shell document when the shell is cached; any other
request is answered with the built response of status 503 and a JSON body. -/
theorem fetch_offline_fallback (env : Env) (request : Request) (s : State)
    (hget : request.method = "GET")
    (hext : startsWith request.url "chrome-extension://" = false)
    (hmiss : cachesMatch s.caches request = none)
    (hnet : env.network s.requests.length request = none) :
    (request.destination = "document" →
        ∀ shell, cachesMatch s.caches (requestOfUrl "/enhanced-dictionary.html") = some shell →
          (dispatchFetch env request s).1 = some (.fulfilled (some shell)))
      ∧ (request.destination ≠ "document" →
          (dispatchFetch env request s).1 = some (.fulfilled (some offlineResponse)))
      ∧ offlineResponse.status = 503
      ∧ offlineResponse.headers = [("Content-Type", "application/json")]
      ∧ (dispatchFetch env request s).2.caches = s.caches := by
  have hl := fetchListener_miss env request s hget hext hmiss
  rw [hnet] at hl
  dsimp only at hl
  by_cases hdoc : request.destination = "document"
  · rw [if_pos hdoc] at hl
    rw [dispatchFetch_of_answer env request s _ _ hl]
    refine ⟨fun _ shell hshell => ?_, fun h => absurd hdoc h, rfl, rfl, rfl⟩
    dsimp only
    rw [hshell]
  · rw [if_neg hdoc] at hl
    rw [dispatchFetch_of_answer env request s _ _ hl]
    exact ⟨fun h => absurd h hdoc, fun _ => rfl, rfl, rfl, rfl⟩

theorem fetch_offline_fallback_witness :
    pageRequest.method = "GET"
      ∧ startsWith pageRequest.url "chrome-extension://" = false
      ∧ cachesMatch activeState.caches pageRequest = none
      ∧ unreachableEnv.network activeState.requests.length pageRequest = none
      ∧ pageRequest.destination = "document"
      ∧ cachesMatch activeState.caches (requestOfUrl "/enhanced-dictionary.html")
        = some shellResponse
      ∧ (pageRequest.destination = "document" →
          ∀ shell,
            cachesMatch activeState.caches (requestOfUrl "/enhanced-dictionary.html")
                = some shell →
              (dispatchFetch unreachableEnv pageRequest activeState).1
                = some (.fulfilled (some shell)))
      ∧ (pageRequest.destination ≠ "document" →
          (dispatchFetch unreachableEnv pageRequest activeState).1
            = some (.fulfilled (some offlineResponse)))
      ∧ offlineResponse.status = 503
      ∧ offlineResponse.headers = [("Content-Type", "application/json")]
      ∧ (dispatchFetch unreachableEnv pageRequest activeState).2.caches = activeState.caches :=
  ⟨rfl, by decide, by decide, rfl, rfl, by decide,
    fetch_offline_fallback unreachableEnv pageRequest activeState rfl (by decide) (by decide)
      rfl⟩

/-- C17, the claim as stated fails. A POST request while the network answers:
the first listener returns without answering, and the second listener answers
the request through `respondWith`. -/
theorem post_request_is_answered_by_second_listener :
    postRequest.method ≠ "GET"
      ∧ (fetchListener onlineEnv postRequest activeState).1 = none
      ∧ (monitoringListener onlineEnv postRequest activeState).1
        = some (.fulfilled (some scriptResponse))
      ∧ (dispatchFetch onlineEnv postRequest activeState).1
        = some (.fulfilled (some scriptResponse))
      ∧ (dispatchFetch onlineEnv postRequest activeState).1 ≠ none :=
  ⟨by decide, by decide, by decide, by decide, by decide⟩

/-- C17, as the code has it. For a request whose method is not GET, or whose URL
starts with `chrome-extension://`, the first listener returns without answering
and the second listener answers with `handleRequest`: exactly one request goes
to the network and no cache is written; when the network answers, the answer is
the network response; when it fails, the caches are read and the answer is the
cached response if there is one and the failure otherwise, which for a request
that is not GET is always the failure. -/
theorem skipped_requests_are_answered_network_first (env : Env) (request : Request)
    (s : State)
    (hskip : request.method ≠ "GET" ∨ startsWith request.url "chrome-extension://" = true) :
    fetchListener env request s = (none, s)
      ∧ dispatchFetch env request s = monitoringListener env request s
      ∧ (dispatchFetch env request s).2.requests = s.requests ++ [request]
      ∧ (dispatchFetch env request s).2.caches = s.caches
      ∧ (∀ response, env.network s.requests.length request = some response →
          (dispatchFetch env request s).1 = some (.fulfilled (some response)))
      ∧ (env.network s.requests.length request = none →
          (dispatchFetch env request s).1
            = match cachesMatch s.caches request with
              | some cachedResponse => some (.fulfilled (some cachedResponse))
              | none => some .rejected)
      ∧ (env.network s.requests.length request = none → request.method ≠ "GET" →
          (dispatchFetch env request s).1 = some .rejected) := by
  have hl : fetchListener env request s = (none, s) := by
    unfold fetchListener
    rcases hskip with h | h
    · rw [if_pos h]
    · by_cases hg : request.method ≠ "GET"
      · rw [if_pos hg]
      · rw [if_neg hg, if_pos h]
  have hd : dispatchFetch env request s = monitoringListener env request s := by
    unfold dispatchFetch
    rw [hl]
  rw [hd]
  refine ⟨hl, rfl, ?_, ?_, ?_, ?_, ?_⟩
  · unfold monitoringListener handleRequest fetch
    cases env.network s.requests.length request with
    | some response => rfl
    | none =>
      dsimp only
      cases cachesMatch s.caches request <;> rfl
  · unfold monitoringListener handleRequest fetch
    cases env.network s.requests.length request with
    | some response => rfl
    | none =>
      dsimp only
      cases cachesMatch s.caches request <;> rfl
  · intro response hnet
    unfold monitoringListener handleRequest fetch
    rw [hnet]
  · intro hnet
    unfold monitoringListener handleRequest fetch
    rw [hnet]
    dsimp only
    cases cachesMatch s.caches request <;> rfl
  · intro hnet hmethod
    have hnone : cachesMatch s.caches request = none := by
      rw [cachesMatch_none_iff]
      intro cache _
      unfold cacheMatch
      rw [if_pos hmethod]
    unfold monitoringListener handleRequest fetch
    rw [hnet]
    dsimp only
    rw [hnone]

theorem skipped_requests_are_answered_network_first_witness :
    (postRequest.method ≠ "GET" ∨ startsWith postRequest.url "chrome-extension://" = true)
      ∧ fetchListener unreachableEnv postRequest activeState = (none, activeState)
      ∧ dispatchFetch unreachableEnv postRequest activeState
        = monitoringListener unreachableEnv postRequest activeState
      ∧ (dispatchFetch unreachableEnv postRequest activeState).2.requests
        = activeState.requests ++ [postRequest]
      ∧ (dispatchFetch unreachableEnv postRequest activeState).2.caches = activeState.caches
      ∧ (∀ response,
          unreachableEnv.network activeState.requests.length postRequest = some response →
            (dispatchFetch unreachableEnv postRequest activeState).1
              = some (.fulfilled (some response)))
      ∧ (unreachableEnv.network activeState.requests.length postRequest = none →
          (dispatchFetch unreachableEnv postRequest activeState).1
            = match cachesMatch activeState.caches postRequest with
              | some cachedResponse => some (.fulfilled (some cachedResponse))
              | none => some .rejected)
      ∧ (unreachableEnv.network activeState.requests.length postRequest = none →
          postRequest.method ≠ "GET" →
            (dispatchFetch unreachableEnv postRequest activeState).1 = some .rejected) :=
  ⟨Or.inl (by decide),
    skipped_requests_are_answered_network_first unreachableEnv postRequest activeState
      (Or.inl (by decide))⟩

end ServiceWorker
